import Mathlib

/-!
Verification development for the BioFSI pre-processing pipeline
(`src/biofsi/pre_processing/fsi_meshing.py` and
`src/biofsi/pre_processing/pre_processing_common.py`).

The pipeline is sequential orchestration glue around external geometry
libraries (vmtk / morphman / vampy).  We embed it shallowly:

* geometric objects (surfaces, meshes, centerlines, Voronoi diagrams) are
  abstract handles (`Val := Nat`);
* every external-library computation is a field of an `Ext` oracle record of
  pure functions, and each invocation is logged in a call trace;
* the on-disk state is a map from file names to optional contents, plus the
  persisted per-case parameter store;
* Python exceptions and `sys.exit(0)` are modelled with `Except Halt`.
-/

namespace BioFSI

/-! ## String and path helpers

These mirror the Python `os.path` and `str` operations used by the source. -/

/-- Split a character list at the LAST occurrence of `sep`
(Python `s.rsplit(sep, 1)`); `none` when `sep` does not occur. -/
def rsplitLast (sep : Char) : List Char → Option (List Char × List Char)
  | [] => none
  | ch :: cs =>
    match rsplitLast sep cs with
    | some (a, b) => some (ch :: a, b)
    | none => if ch = sep then some ([], cs) else none

/-- `filename.rsplit(path.sep, 1)[0]` — the whole string when no separator occurs. -/
def dirOf (s : String) : String :=
  match rsplitLast '/' s.data with
  | some (a, _) => String.mk a
  | none => s

/-- `filename.rsplit(path.sep, 1)[-1]` — the whole string when no separator occurs. -/
def baseOf (s : String) : String :=
  match rsplitLast '/' s.data with
  | some (_, b) => String.mk b
  | none => s

/-- Prefix before the first dot: the first element of Python `s.rsplit(".")`. -/
def takeUntilDot : List Char → List Char
  | [] => []
  | ch :: cs => if ch = '.' then [] else ch :: takeUntilDot cs

/-- `s.rsplit(".")[0]`. -/
def stemOf (s : String) : String := String.mk (takeUntilDot s.data)

/-- Whether a path string starts with the separator `/`. -/
def strStartsWithSlash (s : String) : Bool :=
  match s.data with
  | [] => false
  | ch :: _ => ch = '/'

/-- Whether a path string ends with the separator `/`. -/
def strEndsWithSlash (s : String) : Bool :=
  match s.data.getLast? with
  | some ch => ch = '/'
  | none => false

/-- `os.path.join` restricted to the two-argument form used by the source. -/
def pathJoin (a b : String) : String :=
  bif strStartsWithSlash b then b
  else bif a == "" then b
  else bif strEndsWithSlash a then a ++ b
  else a ++ "/" ++ b

/-- Replace the first occurrence of the placeholder pair `\x7b\x7d` by `arg`
(Python `pattern.format(arg)` for a single positional placeholder). -/
def replaceFirstBraces (arg : String) : List Char → List Char
  | [] => []
  | ch :: cs =>
    match ch, cs with
    | '\x7b', '\x7d' :: rest => arg.data ++ rest
    | _, _ => ch :: replaceFirstBraces arg cs

/-- Python `pat.format(arg)` for the one-placeholder patterns used by the source. -/
def pyFormat1 (pat arg : String) : String := String.mk (replaceFirstBraces arg pat.data)

/-! ## `str2bool` (fsi_meshing.py lines 21-33) -/

/-- ASCII lowering of one character (the `str.lower` cases exercised here). -/
def lowerChar (c : Char) : Char :=
  if 'A' ≤ c ∧ c ≤ 'Z' then Char.ofNat (c.toNat + 32) else c

/-- Python `s.lower()` on the ASCII strings this CLI deals with. -/
def strLower (s : String) : String := String.mk (s.data.map lowerChar)

/-- CLI boolean converter; `Except.error` models the raised `ValueError`. -/
def str2bool (boolean : String) : Except String Bool :=
  if strLower boolean ∈ ["yes", "true", "t", "y", "1"] then .ok true
  else if strLower boolean ∈ ["no", "false", "f", "n", "0"] then .ok false
  else .error "Boolean value expected."

/-! ## File-name table (fsi_meshing.py lines 60-83)

`abs_path` (line 61) is computed in the source but never used, and is omitted. -/

structure Names where
  caseName : String
  dirPath : String
  centerlines : String
  refineRegionCenterlines : String
  regionCenterlinesPat : String
  distToSphereDiam : String
  distToSphereConst : String
  distToSphereCurv : String
  probePoints : String
  voronoi : String
  voronoiSmooth : String
  surfaceSmooth : String
  modelFlowExt : String
  clippedModel : String
  flowCenterlines : String
  surfaceName : String
  xmlMesh : String
  vtuMesh : String
  runScript : String
  seedX : String
  deriving Repr, DecidableEq

/-- The naming conventions of `run_pre_processing`. -/
def mkNames (filenameModel : String) : Names :=
  let c := stemOf (baseOf filenameModel)
  let d := dirOf filenameModel
  { caseName := c
    dirPath := d
    centerlines := pathJoin d (c ++ "_centerlines.vtp")
    refineRegionCenterlines := pathJoin d (c ++ "_refine_region_centerline.vtp")
    regionCenterlinesPat := pathJoin d (c ++ "_sac_centerline_\x7b\x7d.vtp")
    distToSphereDiam := pathJoin d (c ++ "_distance_to_sphere_diam.vtp")
    distToSphereConst := pathJoin d (c ++ "_distance_to_sphere_const.vtp")
    distToSphereCurv := pathJoin d (c ++ "_distance_to_sphere_curv.vtp")
    probePoints := pathJoin d (c ++ "_probe_point")
    voronoi := pathJoin d (c ++ "_voronoi.vtp")
    voronoiSmooth := pathJoin d (c ++ "_voronoi_smooth.vtp")
    surfaceSmooth := pathJoin d (c ++ "_smooth.vtp")
    modelFlowExt := pathJoin d (c ++ "_flowext.vtp")
    clippedModel := pathJoin d (c ++ "_clippedmodel.vtp")
    flowCenterlines := pathJoin d (c ++ "_flow_cl.vtp")
    surfaceName := pathJoin d (c ++ "_remeshed_surface.vtp")
    xmlMesh := pathJoin d (c ++ "_fsi.xml")
    vtuMesh := pathJoin d (c ++ "_fsi.vtu")
    runScript := pathJoin d (c ++ ".sh")
    seedX := pathJoin d (c ++ "_seedX.vtp") }

/-- `file_name_region_centerlines.format(i)` (fsi_meshing.py lines 154, 166, 172). -/
def sacFile (n : Names) (i : Nat) : String := pyFormat1 n.regionCenterlinesPat (toString i)

/-- The removal list of the cleanup step (fsi_meshing.py lines 338-342).
Note that `regionCenterlinesPat` enters UNformatted — with the literal
placeholder braces — exactly as in the source. -/
def filesToRemove (n : Names) : List String :=
  [n.centerlines, n.refineRegionCenterlines, n.regionCenterlinesPat,
   n.distToSphereDiam, n.distToSphereConst, n.distToSphereCurv,
   n.voronoi, n.voronoiSmooth, n.surfaceSmooth, n.modelFlowExt,
   n.clippedModel, n.flowCenterlines, n.surfaceName]

/-! ## Pipeline state model

Geometric objects are abstract handles; external library computations are an
oracle record `Ext` of pure functions; each external invocation is logged. -/

abbrev Val := Nat

/-- One external-library invocation, with the arguments it received. -/
inductive Call where
  | isSurfaceCapped (s : Val)
  | getUncappedSurface (s : Val)
  | vtkCleanPolydata (s : Val)
  | vtkTriangulateSurface (s : Val)
  | surfaceOverview (s : Val)
  | foundAndDeleteNaNTriangles (s : Val)
  | cleanTheSurface (s : Val)
  | vmtkCapPolydata (s : Val)
  | getCentersForMeshing (s : Val) (flag : Option Bool) (useFlowExtensions : Bool)
  | computeCenterlines (source target cappedSurface : Val)
  | getRegionsToRefine (s : Val) (regionPoints : Option (List ℚ))
  | computeCenterlinesRegion (source : Val) (targets : List ℚ) (cappedSurface : Val)
  | extractRegionCenterline (cl : Val) (i : Nat)
  | mergePolydata (ls : List Val)
  | vmtkComputeVoronoiDiagram (s : Val)
  | smoothVoronoiDiagram (v cl : Val) (factor : ℚ) (regionCls : Option Val)
  | createNewSurface (v : Val)
  | computeCenters (s : Val)
  | vmtkSmoothSurface (s : Val) (method : String) (iterations : Nat) (passband : Option ℚ)
  | addFlowExtension (s cl : Val) (includeOutlet : Bool) (length : ℚ) (mode : Option String)
  | refineMeshSeed (s : Val) (seedX : Option (List ℚ)) (coarseningFactor : ℚ)
  | generateMeshFsi (s : Val)
  | meshAlternative (s : Val)
  | scaleSurface (s : Val) (factor : ℚ)
  | scaleMesh (m : Val) (factor : ℚ)
  | writeMeshXml (m : Val) (compressMesh : Bool)
  | setupModelNetwork (cl : Val) (regionCenters : List Val)
  | computeFlowRate (inlet : Val)
  | findBoundaries (m : Val) (rate : ℚ)
  | visualizeModel (network probePoints surfaceExtended : Val) (rate : ℚ)
  deriving Repr, DecidableEq

/-- Oracle of external geometry computations (vmtk / morphman / vampy).
`nanFix` models `ToolRepairSTL.foundAndDeleteNaNTriangles`, which mutates the
surface in place and returns the found-NaN flag.  `generateMeshFsi` returns
`none` when the external generator itself raises. -/
structure Ext where
  isSurfaceCapped : Val → Bool
  getUncappedSurface : Val → Val
  vtkCleanPolydata : Val → Val
  vtkTriangulateSurface : Val → Val
  nanFix : Val → Val × Bool
  cleanTheSurface : Val → Val
  vmtkCapPolydata : Val → Val
  getCentersForMeshing : Val → Option Bool → Bool → Val × Val
  computeCenterlines : Val → Val → Val → Val
  getRegionsToRefine : Val → Option (List ℚ) → List ℚ
  numberOfRegions : Val → Option (List ℚ) → Nat
  computeCenterlinesRegion : Val → List ℚ → Val → Val
  extractRegionCenterline : Val → Nat → Val
  regionCenterPoint : Val → Val
  mergePolydata : List Val → Val
  vmtkComputeVoronoiDiagram : Val → Val
  smoothVoronoiDiagram : Val → Val → ℚ → Option Val → Val
  createNewSurface : Val → Val
  numberOfLines : Val → Nat
  computeCenters : Val → Val × List ℚ
  vmtkSmoothSurface : Val → String → Nat → Option ℚ → Val
  addFlowExtension : Val → Val → Bool → ℚ → Option String → Val
  remeshSeedSurface : Val → Option (List ℚ) → ℚ → Val
  generateMeshFsi : Val → Option (Val × Val)
  meshAlternative : Val → Val
  numPoints : Val → Nat
  scaleSurface : Val → ℚ → Val
  scaleMesh : Val → ℚ → Val
  setupModelNetwork : Val → List Val → Val × Val
  computeFlowRate : Val → ℚ

/-- The arguments of `run_pre_processing` (fsi_meshing.py lines 36-39);
`verbose_print` is a printing callback and is modelled by the flag behind it. -/
structure Args where
  filenameModel : String
  verbosity : Bool
  smoothingMethod : String
  smoothingFactor : ℚ
  meshingMethod : String
  refineRegion : Bool
  createFlowExtensions : Bool
  viz : Bool
  coarseningFactor : ℚ
  inletFlowExtensionLength : ℚ
  outletFlowExtensionLength : ℚ
  edgeLength : Option ℚ
  regionPoints : Option (List ℚ)
  compressMesh : Bool
  scaleFactor : Option ℚ

/-- Values produced by `argparse` in `read_command_line` (lines 347-459). -/
structure ParsedArgs where
  verbosity : Bool
  fileNameModel : String
  compressMesh : Bool
  smoothingMethod : String
  coarseningFactor : ℚ
  smoothingFactor : ℚ
  meshingMethod : String
  edgeLength : Option ℚ
  refineRegion : Bool
  regionPoints : Option (List ℚ)
  flowExtension : Bool
  inletFlowExtLen : ℚ
  outletFlowExtLen : ℚ
  viz : Bool
  scale_factor : ℚ

/-- The keyword dictionary built at lines 474-479: every accepted flag —
including `meshingMethod` and `edgeLength` — is passed into
`run_pre_processing`. -/
def readCommandLine (p : ParsedArgs) : Args :=
  { filenameModel := p.fileNameModel
    verbosity := p.verbosity
    smoothingMethod := p.smoothingMethod
    smoothingFactor := p.smoothingFactor
    meshingMethod := p.meshingMethod
    refineRegion := p.refineRegion
    createFlowExtensions := p.flowExtension
    viz := p.viz
    coarseningFactor := p.coarseningFactor
    inletFlowExtensionLength := p.inletFlowExtLen
    outletFlowExtensionLength := p.outletFlowExtLen
    edgeLength := p.edgeLength
    regionPoints := p.regionPoints
    compressMesh := p.compressMesh
    scaleFactor := some p.scale_factor }

/-- Pipeline state: the on-disk files, the persisted per-case parameter store,
the log of external invocations, and the printed error messages. -/
structure St where
  fs : String → Option Val
  params : String → Option Nat
  trace : List Call
  prints : List String

def St.call (st : St) (c : Call) : St := { st with trace := st.trace ++ [c] }

def St.write (st : St) (f : String) (v : Val) : St :=
  { st with fs := Function.update st.fs f (some v) }

def St.removeFile (st : St) (f : String) : St :=
  { st with fs := Function.update st.fs f none }

def St.readFile (st : St) (f : String) : Val := (st.fs f).getD 0

def St.print (st : St) (m : String) : St := { st with prints := st.prints ++ [m] }

/-- Run termination: `sys.exit(0)` or an uncaught Python exception. -/
inductive Halt where
  | exit0
  | raised (msg : String)
  deriving Repr, DecidableEq

/-! ## Pipeline stages (fsi_meshing.py `run_pre_processing`) -/

/-- Lines 92-103: uncap a capped model unless Voronoi smoothing is chosen,
short-circuited by the clipped-model cache file. -/
def clipStage (ext : Ext) (smoothingMethod : String) (n : Names) (st : St) (surface : Val) :
    St × Val :=
  let st := st.call (.isSurfaceCapped surface)
  if ext.isSurfaceCapped surface = true ∧ smoothingMethod ≠ "voronoi" then
    if st.fs n.clippedModel = none then
      let s2 := ext.getUncappedSurface surface
      let st := st.call (.getUncappedSurface surface)
      (st.write n.clippedModel s2, s2)
    else (st, st.readFile n.clippedModel)
  else (st, surface)

/-- Lines 106-120: the clean/triangulate/repair block, skipped when the
parameter store already holds `check_surface`; `Except.error` models the
`RuntimeError` raised when NaN triangles persist. -/
def checkSurfaceStage (ext : Ext) (st : St) (surface : Val) : St × Except String Val :=
  if st.params "check_surface" = none then
    let s1 := ext.vtkCleanPolydata surface
    let st := st.call (.vtkCleanPolydata surface)
    let s2 := ext.vtkTriangulateSurface s1
    let st := st.call (.vtkTriangulateSurface s1)
    let st := st.call (.surfaceOverview s2)
    let s3 := (ext.nanFix s2).1
    let st := st.call (.foundAndDeleteNaNTriangles s2)
    let s4 := ext.cleanTheSurface s3
    let st := st.call (.cleanTheSurface s3)
    let s5 := (ext.nanFix s4).1
    let foundNaN := (ext.nanFix s4).2
    let st := st.call (.foundAndDeleteNaNTriangles s4)
    if foundNaN then
      (st, .error "There is an issue with the surface. Nan coordinates or some other shenanigans.")
    else
      ({ st with params := Function.update st.params "check_surface" (some 1) }, .ok s5)
  else (st, .ok surface)

/-- Lines 122-132: cap the surface and compute the centerlines.
Returns `(st, capped_surface, inlet, outlets, centerlines)`.
`get_centerline_tolerance` (line 132) only feeds the region walk, which is
inside the `extractRegionCenterline` oracle here. -/
def centerlinesStage (ext : Ext) (n : Names) (st : St) (surface : Val) :
    St × Val × Val × Val × Val :=
  let capped := ext.vmtkCapPolydata surface
  let st := st.call (.vmtkCapPolydata surface)
  let io := ext.getCentersForMeshing surface (some false) false
  let st := st.call (.getCentersForMeshing surface (some false) false)
  let cl := ext.computeCenterlines io.1 io.2 capped
  let st := (st.call (.computeCenterlines io.1 io.2 capped)).write n.centerlines cl
  (st, capped, io.1, io.2, cl)

/-- Lines 134-181: the optional refine-region block.  The tolerance walk that
truncates each sac centerline runs entirely through the external point
locator and is folded into the `extractRegionCenterline` oracle; the external
`get_regions_to_refine` helper records `number_of_regions` in the parameter
store.  `misr_max` (lines 136, 180-181) is computed by the source but never
used downstream and is omitted.  Returns `(st, region_center, region_centerlines)`. -/
def refineRegionStage (ext : Ext) (a : Args) (n : Names) (st : St) (capped inlet cl : Val) :
    St × List Val × Option Val :=
  if a.refineRegion then
    let regions := ext.getRegionsToRefine capped a.regionPoints
    let st := st.call (.getRegionsToRefine capped a.regionPoints)
    let st := { st with
      params := Function.update st.params "number_of_regions"
        (some (ext.numberOfRegions capped a.regionPoints)) }
    let clAnu := ext.computeCenterlinesRegion inlet regions capped
    let st := (st.call (.computeCenterlinesRegion inlet regions capped)).write
      n.refineRegionCenterlines clAnu
    let numAnu := (st.params "number_of_regions").getD 0
    let step := fun (acc : St × List Val) (i : Nat) =>
      if acc.1.fs (sacFile n i) = none then
        let line := ext.extractRegionCenterline clAnu i
        (((acc.1.call (.extractRegionCenterline clAnu i)).write (sacFile n i) line),
          acc.2 ++ [line])
      else (acc.1, acc.2 ++ [acc.1.readFile (sacFile n i)])
    let stLines := (List.range numAnu).foldl step (st, [])
    let refineLines := stLines.2
    let regionCls := ext.mergePolydata refineLines
    let st := stLines.1.call (.mergePolydata refineLines)
    (st, refineLines.map ext.regionCenterPoint, some regionCls)
  else (st, [], none)

/-- Lines 188-192: the Voronoi-diagram cache check. -/
def getVoronoi (ext : Ext) (n : Names) (st : St) (surface : Val) : St × Val :=
  if st.fs n.voronoi = none then
    let v := ext.vmtkComputeVoronoiDiagram surface
    let st := st.call (.vmtkComputeVoronoiDiagram surface)
    (st.write n.voronoi v, v)
  else (st, st.readFile n.voronoi)

/-- Lines 194-203: the smoothed-Voronoi cache check. -/
def getSmoothVoronoi (ext : Ext) (a : Args) (n : Names) (st : St) (voronoi cl : Val)
    (regionCls : Option Val) : St × Val :=
  if st.fs n.voronoiSmooth = none then
    let arg := if a.refineRegion then regionCls else none
    let sv := ext.smoothVoronoiDiagram voronoi cl a.smoothingFactor arg
    let st := st.call (.smoothVoronoiDiagram voronoi cl a.smoothingFactor arg)
    (st.write n.voronoiSmooth sv, sv)
  else (st, st.readFile n.voronoiSmooth)

/-- The failure message printed at lines 219-222. -/
def clipFailMsg (f : String) : String :=
  "ERROR: Automatic clipping failed. You have to open " ++ f ++
    " and manually clipp the branch which still is capped. Overwrite the current " ++ f ++
    " and restart the script."

/-- Lines 184-235: the Voronoi smoothing branch, including the outlet-count
check, the fallback-and-`sys.exit(0)` path, and the surface-smooth cache. -/
def voronoiBranch (ext : Ext) (a : Args) (n : Names) (st : St) (surface cl : Val)
    (regionCls : Option Val) : St × Except Halt Val :=
  if st.fs n.surfaceSmooth = none then
    let gv := getVoronoi ext n st surface
    let sv := getSmoothVoronoi ext a n gv.1 gv.2 cl regionCls
    let st := sv.1
    let enveloped := ext.createNewSurface sv.2
    let st := st.call (.createNewSurface sv.2)
    let uncapped := ext.getUncappedSurface enveloped
    let st := st.call (.getUncappedSurface enveloped)
    let numOutlets := ext.numberOfLines cl
    let centers := ext.computeCenters uncapped
    let st := st.call (.computeCenters uncapped)
    let numOutletsAfter := centers.2.length / 3
    if numOutlets ≠ numOutletsAfter then
      let s2 := ext.vmtkSmoothSurface enveloped "laplace" 200 none
      let st := st.call (.vmtkSmoothSurface enveloped "laplace" 200 none)
      let st := st.write n.surfaceSmooth s2
      let st := st.print (clipFailMsg n.surfaceSmooth)
      (st, .error .exit0)
    else
      let s3 := ext.vmtkSmoothSurface uncapped "laplace" 200 none
      let st := st.call (.vmtkSmoothSurface uncapped "laplace" 200 none)
      (st.write n.surfaceSmooth s3, .ok s3)
  else (st, .ok (st.readFile n.surfaceSmooth))

/-- The smoothed Voronoi diagram obtained inside a fresh Voronoi branch
(`smooth_voronoi` at lines 197-203). -/
def vbSmoothVoronoi (ext : Ext) (a : Args) (n : Names) (st : St) (surface cl : Val)
    (r : Option Val) : Val :=
  (getSmoothVoronoi ext a n (getVoronoi ext n st surface).1
    (getVoronoi ext n st surface).2 cl r).2

/-- The re-enveloped surface (`create_new_surface`, line 206). -/
def vbEnveloped (ext : Ext) (a : Args) (n : Names) (st : St) (surface cl : Val)
    (r : Option Val) : Val :=
  ext.createNewSurface (vbSmoothVoronoi ext a n st surface cl r)

/-- The uncapped re-enveloped surface (line 209). -/
def vbUncapped (ext : Ext) (a : Args) (n : Names) (st : St) (surface cl : Val)
    (r : Option Val) : Val :=
  ext.getUncappedSurface (vbEnveloped ext a n st surface cl r)

/-- `num_outlets_after` (line 214). -/
def vbOutletsAfter (ext : Ext) (a : Args) (n : Names) (st : St) (surface cl : Val)
    (r : Option Val) : Nat :=
  (ext.computeCenters (vbUncapped ext a n st surface cl r)).2.length / 3

/-- Lines 184-249: smoothing-strategy dispatch.  An unknown method behaves
like `no_smooth`, exactly as the `elif ... == "no_smooth" or None` of the
source. -/
def smoothStage (ext : Ext) (a : Args) (n : Names) (st : St) (surface cl : Val)
    (regionCls : Option Val) : St × Except Halt Val :=
  if a.smoothingMethod = "voronoi" then
    voronoiBranch ext a n st surface cl regionCls
  else if a.smoothingMethod = "laplace" ∨ a.smoothingMethod = "taubin" then
    if st.fs n.surfaceSmooth = none then
      let s1 := ext.vmtkSmoothSurface surface a.smoothingMethod 400 (some (1 / 2))
      let st := st.call (.vmtkSmoothSurface surface a.smoothingMethod 400 (some (1 / 2)))
      (st.write n.surfaceSmooth s1, .ok s1)
    else (st, .ok (st.readFile n.surfaceSmooth))
  else (st, .ok surface)

/-- Lines 252-268: the optional flow-extension stage with its cache. -/
def flowExtStage (ext : Ext) (a : Args) (n : Names) (st : St) (surface cl : Val) : St × Val :=
  if a.createFlowExtensions then
    if st.fs n.modelFlowExt = none then
      let s1 := ext.addFlowExtension surface cl false a.inletFlowExtensionLength
        (some "boundarynormal")
      let st := st.call (.addFlowExtension surface cl false a.inletFlowExtensionLength
        (some "boundarynormal"))
      let s2 := ext.addFlowExtension s1 cl true a.outletFlowExtensionLength none
      let st := st.call (.addFlowExtension s1 cl true a.outletFlowExtensionLength none)
      let s3 := ext.vmtkSmoothSurface s2 "laplace" 200 none
      let st := st.call (.vmtkSmoothSurface s2 "laplace" 200 none)
      (st.write n.modelFlowExt s3, s3)
    else (st, st.readFile n.modelFlowExt)
  else (st, surface)

/-- Lines 274-287: recompute the centerlines on the extended geometry, with
the flow-centerlines cache.  In the cached sub-branch `inlet` keeps its
pre-extension value, exactly as in the source.  Returns
`(st, centerlines, inlet)`. -/
def flowCenterlinesStage (ext : Ext) (a : Args) (n : Names) (st : St)
    (surfaceExtended capped cl inlet : Val) : St × Val × Val :=
  if a.createFlowExtensions then
    if st.fs n.flowCenterlines = none then
      let io := ext.getCentersForMeshing surfaceExtended none true
      let st := st.call (.getCentersForMeshing surfaceExtended none true)
      let cl2 := ext.computeCenterlines io.1 io.2 capped
      let st := (st.call (.computeCenterlines io.1 io.2 capped)).write n.flowCenterlines cl2
      (st, cl2, io.1)
    else (st, st.readFile n.flowCenterlines, inlet)
  else (st, cl, inlet)

/-- Lines 289-293: the seed-based remeshing with its cache file.
`refine_mesh_seed` itself writes the remeshed surface to `seedX`
(pre_processing_common.py lines 90-94). -/
def seedStage (ext : Ext) (a : Args) (n : Names) (st : St) (surfaceExtended : Val) : St × Val :=
  if st.fs n.seedX = none then
    let r := ext.remeshSeedSurface surfaceExtended a.regionPoints a.coarseningFactor
    let st := st.call (.refineMeshSeed surfaceExtended a.regionPoints a.coarseningFactor)
    (st.write n.seedX r, r)
  else (st, st.readFile n.seedX)

/-- `write_mesh` (pre_processing_common.py lines 141-165): persist the
remeshed surface, the VTU mesh and the solver XML mesh. -/
def writeMesh (a : Args) (n : Names) (st : St) (mesh remeshedSurface : Val) : St :=
  let st := (st.write n.surfaceName remeshedSurface).write n.vtuMesh mesh
  (st.call (.writeMeshXml mesh a.compressMesh)).write n.xmlMesh mesh

/-- Lines 311-316: the optional scaling followed by `write_mesh`. -/
def meshFinish (ext : Ext) (a : Args) (n : Names) (st : St) (mesh remeshedSurface : Val) :
    St × Except Halt Val :=
  match a.scaleFactor with
  | some k =>
    let st := (st.call (.scaleSurface remeshedSurface k)).call (.scaleMesh mesh k)
    let mesh2 := ext.scaleMesh mesh k
    (writeMesh a n st mesh2 (ext.scaleSurface remeshedSurface k), .ok mesh2)
  | none => (writeMesh a n st mesh remeshedSurface, .ok mesh)

/-- Lines 304-309: the `except:` handler — one retry on the alternative
remeshing of the same input surface; a second degenerate result raises. -/
def meshRetry (ext : Ext) (a : Args) (n : Names) (st : St) (remeshedSurfaceSeed : Val) :
    St × Except Halt Val :=
  let alt := ext.meshAlternative remeshedSurfaceSeed
  let st := st.call (.meshAlternative remeshedSurfaceSeed)
  let st := st.call (.generateMeshFsi alt)
  match ext.generateMeshFsi alt with
  | none => (st, Except.error (Halt.raised "generate_mesh_fsi failed"))
  | some mr =>
    if ext.numPoints mr.1 = 0 then
      (st, Except.error (Halt.raised "No points in mesh, after remeshing"))
    else if ext.numPoints mr.2 = 0 then
      (st, Except.error (Halt.raised "No points in surface mesh, try to remesh"))
    else meshFinish ext a n st mr.1 mr.2

/-- Lines 296-319: the mesh-generation stage.  The bare `except:` of the
source catches both a raised generator and the degenerate-result assertions,
and enters `meshRetry`. -/
def meshStage (ext : Ext) (a : Args) (n : Names) (st : St) (remeshedSurfaceSeed : Val) :
    St × Except Halt Val :=
  if st.fs n.vtuMesh = none then
    let st := st.call (.generateMeshFsi remeshedSurfaceSeed)
    match ext.generateMeshFsi remeshedSurfaceSeed with
    | none => meshRetry ext a n st remeshedSurfaceSeed
    | some mr =>
      if ext.numPoints mr.2 = 0 ∨ ext.numPoints mr.1 = 0 then
        meshRetry ext a n st remeshedSurfaceSeed
      else meshFinish ext a n st mr.1 mr.2
  else (st, .ok (st.readFile n.vtuMesh))

/-- Lines 321-335: network setup, flow-rate computation, boundary tagging and
optional visualization. -/
def postStage (ext : Ext) (a : Args) (st : St) (cl : Val) (regionCenters : List Val)
    (inlet surfaceExtended mesh : Val) : St :=
  let np := ext.setupModelNetwork cl regionCenters
  let st := st.call (.setupModelNetwork cl regionCenters)
  let rate := ext.computeFlowRate inlet
  let st := st.call (.computeFlowRate inlet)
  let st := st.call (.findBoundaries mesh rate)
  if a.viz then st.call (.visualizeModel np.1 np.2 surfaceExtended rate) else st

/-- One step of the cleanup loop: `if path.exists(file): remove(file)`. -/
def removeIfExists (st : St) (f : String) : St :=
  if st.fs f = none then st else st.removeFile f

/-- Lines 337-345: remove the intermediate files that exist. -/
def cleanupStage (n : Names) (st : St) : St :=
  (filesToRemove n).foldl removeIfExists st

/-- Whether a first mesh-generation attempt lands in the `except:` handler:
either the generator itself raised, or a degenerate (zero-point) mesh or
remeshed surface failed an assertion. -/
def genDegenerate (ext : Ext) (s : Val) : Bool :=
  match ext.generateMeshFsi s with
  | none => true
  | some mr => ext.numPoints mr.2 = 0 || ext.numPoints mr.1 = 0

/-- Recognize `generate_mesh_fsi` invocations in the trace. -/
def Call.isGenCall : Call → Bool
  | .generateMeshFsi _ => true
  | _ => false

/-- Recognize `mesh_alternative` invocations in the trace. -/
def Call.isAltCall : Call → Bool
  | .meshAlternative _ => true
  | _ => false

/-- The values the mesh stage and the post stage consume. -/
structure Mid where
  surfaceExtended : Val
  centerlines : Val
  inlet : Val
  seedSurface : Val
  regionCenters : List Val

/-- `run_pre_processing` up to (but excluding) the mesh-computation stage. -/
def runToMesh (ext : Ext) (a : Args) (st0 : St) : St × Except Halt Mid :=
  let n := mkNames a.filenameModel
  let surface0 := st0.readFile a.filenameModel
  let cl0 := clipStage ext a.smoothingMethod n st0 surface0
  match checkSurfaceStage ext cl0.1 cl0.2 with
  | (st, Except.error msg) => (st, .error (.raised msg))
  | (st, Except.ok surface) =>
    let c := centerlinesStage ext n st surface
    let st := c.1
    let capped := c.2.1
    let inlet := c.2.2.1
    let cl := c.2.2.2.2
    let r := refineRegionStage ext a n st capped inlet cl
    let st := r.1
    let regionCenters := r.2.1
    let regionCls := r.2.2
    match smoothStage ext a n st surface cl regionCls with
    | (st, Except.error h) => (st, .error h)
    | (st, Except.ok surface) =>
      let fe := flowExtStage ext a n st surface cl
      let st := fe.1
      let surfaceExtended := fe.2
      let capped2 := ext.vmtkCapPolydata surfaceExtended
      let st := st.call (.vmtkCapPolydata surfaceExtended)
      let fc := flowCenterlinesStage ext a n st surfaceExtended capped2 cl inlet
      let se := seedStage ext a n fc.1 surfaceExtended
      (se.1, .ok { surfaceExtended := surfaceExtended, centerlines := fc.2.1,
                   inlet := fc.2.2, seedSurface := se.2, regionCenters := regionCenters })

/-- `run_pre_processing` from the mesh-computation stage to the end. -/
def runFromMesh (ext : Ext) (a : Args) (n : Names) (st : St) (mid : Mid) :
    St × Except Halt Unit :=
  match meshStage ext a n st mid.seedSurface with
  | (st, Except.error h) => (st, .error h)
  | (st, Except.ok mesh) =>
    let st := postStage ext a st mid.centerlines mid.regionCenters mid.inlet
      mid.surfaceExtended mesh
    (cleanupStage n st, .ok ())

/-- `run_pre_processing` (fsi_meshing.py lines 36-345). -/
def runPreProcessing (ext : Ext) (a : Args) (st0 : St) : St × Except Halt Unit :=
  match runToMesh ext a st0 with
  | (st, Except.error h) => (st, .error h)
  | (st, Except.ok mid) => runFromMesh ext a (mkNames a.filenameModel) st mid

/-- Whether a stage result is a non-halting one. -/
def isOkE {α : Type} : Except Halt α → Bool
  | .ok _ => true
  | .error _ => false

/-! ## A concrete oracle and states, used by the witnesses below -/

/-- A concrete external-library oracle. -/
def extA : Ext where
  isSurfaceCapped := fun _ => false
  getUncappedSurface := fun s => s + 1
  vtkCleanPolydata := fun s => s + 1
  vtkTriangulateSurface := fun s => s + 1
  nanFix := fun s => (s, false)
  cleanTheSurface := fun s => s
  vmtkCapPolydata := fun s => s + 10
  getCentersForMeshing := fun s _ _ => (s + 2, s + 3)
  computeCenterlines := fun a b c => a + b + c
  getRegionsToRefine := fun _ _ => []
  numberOfRegions := fun _ _ => 0
  computeCenterlinesRegion := fun a _ c => a + c
  extractRegionCenterline := fun cl i => cl + i
  regionCenterPoint := fun v => v
  mergePolydata := fun ls => ls.foldl (· + ·) 0
  vmtkComputeVoronoiDiagram := fun s => s + 4
  smoothVoronoiDiagram := fun v cl _ _ => v + cl
  createNewSurface := fun v => v + 5
  numberOfLines := fun _ => 2
  computeCenters := fun _ => (0, [1, 2, 3, 1, 2, 3])
  vmtkSmoothSurface := fun s _ _ _ => s + 6
  addFlowExtension := fun s _ _ _ _ => s + 7
  remeshSeedSurface := fun s _ _ => s + 8
  generateMeshFsi := fun s => some (s + 100, s + 200)
  meshAlternative := fun s => s + 9
  numPoints := fun v => v
  scaleSurface := fun s _ => s * 2
  scaleMesh := fun m _ => m * 2
  setupModelNetwork := fun cl _ => (cl, cl + 1)
  computeFlowRate := fun _ => 1

/-- A minimal argument record for concrete runs. -/
def argsA : Args where
  filenameModel := "d/c.vtp"
  verbosity := false
  smoothingMethod := "no_smooth"
  smoothingFactor := 1 / 4
  meshingMethod := "curvature"
  refineRegion := false
  createFlowExtensions := false
  viz := false
  coarseningFactor := 1
  inletFlowExtensionLength := 0
  outletFlowExtensionLength := 0
  edgeLength := none
  regionPoints := none
  compressMesh := false
  scaleFactor := none

/-- Initial disk state holding only the input model, with the surface check
already recorded in the parameter store. -/
def stA : St where
  fs := fun f => if f = "d/c.vtp" then some 1 else none
  params := fun k => if k = "check_surface" then some 1 else none
  trace := []
  prints := []

/-- Oracle whose mesh generator always yields zero-point results. -/
def extB : Ext := { extA with generateMeshFsi := fun _ => some (0, 0) }

/-- Oracle whose centerline line count disagrees with the recomputed outlet
count (`5 ≠ 6 / 3`). -/
def extC : Ext := { extA with numberOfLines := fun _ => 5 }

/-- Oracle whose NaN-triangle repair keeps finding NaN triangles. -/
def extD : Ext := { extA with nanFix := fun s => (s, true) }

/-- Argument record selecting Voronoi smoothing. -/
def argsV : Args := { argsA with smoothingMethod := "voronoi" }

/-- Argument record selecting Laplacian smoothing and flow extensions. -/
def argsL : Args :=
  { argsA with smoothingMethod := "laplace", createFlowExtensions := true }

/-- Initial state with an empty parameter store. -/
def stP : St := { stA with params := fun _ => none }

/-- Initial state in which the volumetric-mesh cache file pre-exists. -/
def stB : St :=
  { stA with fs := fun f =>
      if f = "d/c.vtp" then some 1 else if f = "d/c_fsi.vtu" then some 42 else none }

/-- Initial state in which every stage cache file pre-exists. -/
def stC : St :=
  { stA with fs := fun f =>
      if f ∈ ["d/c.vtp", "d/c_smooth.vtp", "d/c_voronoi.vtp", "d/c_voronoi_smooth.vtp",
              "d/c_flowext.vtp", "d/c_flow_cl.vtp", "d/c_seedX.vtp", "d/c_fsi.vtu"]
      then some 7 else none }

/-- The pipeline state reached just before the mesh stage on the `stA` run. -/
def stM_A : St := (runToMesh extA argsA stA).1

/-- The mid-pipeline values of the `stA` run. -/
def mid_A : Mid :=
  match (runToMesh extA argsA stA).2 with
  | .ok m => m
  | .error _ => { surfaceExtended := 0, centerlines := 0, inlet := 0, seedSurface := 0,
                  regionCenters := [] }

/-! ## The seed-based size field (pre_processing_common.py lines 45-78)

The `"Size"` array attached by `refine_mesh_seed` is pure numerics over the
vertex distances; we model it over the reals, one definition per numpy line. -/

/-- A 3-D point, as returned by `surface.GetPoints().GetPoint(i)`. -/
structure Pt where
  x : ℝ
  y : ℝ
  z : ℝ

/-- `np.sqrt(np.sum((np.asarray(seedX) - np.asarray(piX)) ** 2))` (line 65). -/
noncomputable def seedDist (seedX piX : Pt) : ℝ :=
  Real.sqrt ((seedX.x - piX.x) ^ 2 + (seedX.y - piX.y) ^ 2 + (seedX.z - piX.z) ^ 2)

/-- `TargetEdgeLength_s = 0.25` (line 56). -/
noncomputable def targetEdgeLength_s : ℝ := 0.25

/-- `dist_array.min()` over the nonempty vertex set. -/
noncomputable def arrMin {n : ℕ} (d : Fin (n + 1) → ℝ) : ℝ :=
  Finset.univ.inf' Finset.univ_nonempty d

/-- `dist_array.max()` over the nonempty vertex set. -/
noncomputable def arrMax {n : ℕ} (d : Fin (n + 1) → ℝ) : ℝ :=
  Finset.univ.sup' Finset.univ_nonempty d

/-- Lines 63-65: per-vertex Euclidean distance to the seed point. -/
noncomputable def distArray {n : ℕ} (surface : Fin (n + 1) → Pt) (seedX : Pt) :
    Fin (n + 1) → ℝ :=
  fun i => seedDist seedX (surface i)

/-- Line 66: `dist_array - dist_array.min()`. -/
noncomputable def shiftedArr {n : ℕ} (d : Fin (n + 1) → ℝ) : Fin (n + 1) → ℝ :=
  fun i => d i - arrMin d

/-- Line 67: `dist_array / dist_array.max() + 1`. -/
noncomputable def unitArr {n : ℕ} (d : Fin (n + 1) → ℝ) : Fin (n + 1) → ℝ :=
  fun i => shiftedArr d i / arrMax (shiftedArr d) + 1

/-- Line 68: `dist_array ** factor_shape - 1` with `factor_shape = 0.3`. -/
noncomputable def powArr {n : ℕ} (d : Fin (n + 1) → ℝ) : Fin (n + 1) → ℝ :=
  fun i => unitArr d i ^ (0.3 : ℝ) - 1

/-- Line 69: `dist_array / dist_array.max()`. -/
noncomputable def normArr {n : ℕ} (d : Fin (n + 1) → ℝ) : Fin (n + 1) → ℝ :=
  fun i => powArr d i / arrMax (powArr d)

/-- Lines 70-71: rescale to `[1, factor_scale]`, then by `TargetEdgeLength_s`. -/
noncomputable def sizeArr {n : ℕ} (d : Fin (n + 1) → ℝ) (factorScale : ℝ) :
    Fin (n + 1) → ℝ :=
  fun i => (normArr d i * (factorScale - 1) + 1) * targetEdgeLength_s

/-- The per-vertex `"Size"` scalar field computed by `refine_mesh_seed`. -/
noncomputable def sizeField {n : ℕ} (surface : Fin (n + 1) → Pt) (seedX : Pt)
    (factorScale : ℝ) : Fin (n + 1) → ℝ :=
  sizeArr (distArray surface seedX) factorScale

/-- A concrete two-point surface, used by the size-field witness. -/
noncomputable def surf2 : Fin 2 → Pt := fun i => if i = 0 then ⟨1, 0, 0⟩ else ⟨3, 0, 0⟩

/-- A concrete seed point at the origin. -/
noncomputable def seed2 : Pt := ⟨0, 0, 0⟩

lemma arrMin_le {n : ℕ} (d : Fin (n + 1) → ℝ) (i : Fin (n + 1)) : arrMin d ≤ d i :=
  Finset.inf'_le d (Finset.mem_univ i)

lemma le_arrMax {n : ℕ} (d : Fin (n + 1) → ℝ) (i : Fin (n + 1)) : d i ≤ arrMax d :=
  Finset.le_sup' d (Finset.mem_univ i)

lemma exists_eq_arrMax {n : ℕ} (d : Fin (n + 1) → ℝ) : ∃ i, arrMax d = d i := by
  obtain ⟨i, _, hi⟩ := Finset.exists_mem_eq_sup' (Finset.univ_nonempty) d
  exact ⟨i, hi⟩

lemma arrMin_lt_arrMax {n : ℕ} (d : Fin (n + 1) → ℝ) (hne : ∃ i j, d i ≠ d j) :
    arrMin d < arrMax d := by
  obtain ⟨i, j, hij⟩ := hne
  rcases lt_or_le (arrMin d) (arrMax d) with h | h
  · exact h
  · have hall : ∀ k, d k = arrMin d :=
      fun k => le_antisymm ((le_arrMax d k).trans h) (arrMin_le d k)
    exact absurd ((hall i).trans (hall j).symm) hij

lemma arrMax_shiftedArr {n : ℕ} (d : Fin (n + 1) → ℝ) :
    arrMax (shiftedArr d) = arrMax d - arrMin d := by
  apply le_antisymm
  · exact Finset.sup'_le _ _ fun i _ => sub_le_sub_right (le_arrMax d i) _
  · obtain ⟨i, hi⟩ := exists_eq_arrMax d
    have h2 : arrMax d - arrMin d = shiftedArr d i := by
      show arrMax d - arrMin d = d i - arrMin d
      rw [hi]
    rw [h2]
    exact le_arrMax (shiftedArr d) i

lemma unitArr_bounds {n : ℕ} (d : Fin (n + 1) → ℝ) (hne : ∃ i j, d i ≠ d j)
    (i : Fin (n + 1)) : 1 ≤ unitArr d i ∧ unitArr d i ≤ 2 := by
  have hpos : 0 < arrMax d - arrMin d := sub_pos.mpr (arrMin_lt_arrMax d hne)
  have hsh : shiftedArr d i = d i - arrMin d := rfl
  have hq : unitArr d i = (d i - arrMin d) / (arrMax d - arrMin d) + 1 := by
    show shiftedArr d i / arrMax (shiftedArr d) + 1 = _
    rw [hsh, arrMax_shiftedArr]
  constructor
  · have h0 : 0 ≤ (d i - arrMin d) / (arrMax d - arrMin d) :=
      div_nonneg (sub_nonneg.mpr (arrMin_le d i)) hpos.le
    rw [hq]; linarith
  · have h1 : (d i - arrMin d) / (arrMax d - arrMin d) ≤ 1 := by
      rw [div_le_one hpos]
      exact sub_le_sub_right (le_arrMax d i) _
    rw [hq]; linarith

lemma unitArr_mono {n : ℕ} (d : Fin (n + 1) → ℝ) (hne : ∃ i j, d i ≠ d j)
    {i j : Fin (n + 1)} (hij : d i ≤ d j) : unitArr d i ≤ unitArr d j := by
  have hpos : 0 < arrMax (shiftedArr d) := by
    rw [arrMax_shiftedArr]
    exact sub_pos.mpr (arrMin_lt_arrMax d hne)
  have hsh : shiftedArr d i ≤ shiftedArr d j := sub_le_sub_right hij _
  have := (div_le_div_iff_of_pos_right hpos).mpr hsh
  show shiftedArr d i / arrMax (shiftedArr d) + 1 ≤ shiftedArr d j / arrMax (shiftedArr d) + 1
  linarith

lemma unitArr_argmax {n : ℕ} (d : Fin (n + 1) → ℝ) (hne : ∃ i j, d i ≠ d j) :
    ∃ i, unitArr d i = 2 := by
  obtain ⟨i, hi⟩ := exists_eq_arrMax d
  refine ⟨i, ?_⟩
  have hpos : arrMax d - arrMin d ≠ 0 := ne_of_gt (sub_pos.mpr (arrMin_lt_arrMax d hne))
  have hq : unitArr d i = (d i - arrMin d) / (arrMax d - arrMin d) + 1 := by
    show shiftedArr d i / arrMax (shiftedArr d) + 1 = _
    rw [arrMax_shiftedArr]; rfl
  rw [hq, ← hi, div_self hpos]
  norm_num

lemma powArr_nonneg {n : ℕ} (d : Fin (n + 1) → ℝ) (hne : ∃ i j, d i ≠ d j)
    (i : Fin (n + 1)) : 0 ≤ powArr d i := by
  have h1 : 1 ≤ unitArr d i := (unitArr_bounds d hne i).1
  have h2 : (1 : ℝ) ^ (0.3 : ℝ) ≤ unitArr d i ^ (0.3 : ℝ) :=
    Real.rpow_le_rpow zero_le_one h1 (by norm_num)
  rw [Real.one_rpow] at h2
  show 0 ≤ unitArr d i ^ (0.3 : ℝ) - 1
  linarith

lemma powArr_le {n : ℕ} (d : Fin (n + 1) → ℝ) (hne : ∃ i j, d i ≠ d j)
    (i : Fin (n + 1)) : powArr d i ≤ (2 : ℝ) ^ (0.3 : ℝ) - 1 := by
  have h0 : (0 : ℝ) ≤ unitArr d i := le_trans zero_le_one (unitArr_bounds d hne i).1
  have h2 := Real.rpow_le_rpow h0 (unitArr_bounds d hne i).2 (by norm_num : (0:ℝ) ≤ 0.3)
  show unitArr d i ^ (0.3 : ℝ) - 1 ≤ _
  linarith

lemma powArr_mono {n : ℕ} (d : Fin (n + 1) → ℝ) (hne : ∃ i j, d i ≠ d j)
    {i j : Fin (n + 1)} (hij : d i ≤ d j) : powArr d i ≤ powArr d j := by
  have h0 : (0 : ℝ) ≤ unitArr d i := le_trans zero_le_one (unitArr_bounds d hne i).1
  have h2 := Real.rpow_le_rpow h0 (unitArr_mono d hne hij) (by norm_num : (0:ℝ) ≤ 0.3)
  show unitArr d i ^ (0.3 : ℝ) - 1 ≤ unitArr d j ^ (0.3 : ℝ) - 1
  linarith

lemma two_rpow_sub_one_pos : (0 : ℝ) < (2 : ℝ) ^ (0.3 : ℝ) - 1 := by
  have h : (1 : ℝ) < (2 : ℝ) ^ (0.3 : ℝ) := by
    rw [Real.one_lt_rpow_iff_of_pos (by norm_num : (0:ℝ) < 2)]
    left
    constructor <;> norm_num
  linarith

lemma arrMax_powArr {n : ℕ} (d : Fin (n + 1) → ℝ) (hne : ∃ i j, d i ≠ d j) :
    arrMax (powArr d) = (2 : ℝ) ^ (0.3 : ℝ) - 1 := by
  apply le_antisymm
  · exact Finset.sup'_le _ _ fun i _ => powArr_le d hne i
  · obtain ⟨i, hi⟩ := unitArr_argmax d hne
    have h2 : powArr d i = (2 : ℝ) ^ (0.3 : ℝ) - 1 := by
      show unitArr d i ^ (0.3 : ℝ) - 1 = _
      rw [hi]
    rw [← h2]
    exact le_arrMax (powArr d) i

lemma normArr_bounds {n : ℕ} (d : Fin (n + 1) → ℝ) (hne : ∃ i j, d i ≠ d j)
    (i : Fin (n + 1)) : 0 ≤ normArr d i ∧ normArr d i ≤ 1 := by
  have hP : 0 < arrMax (powArr d) := by
    rw [arrMax_powArr d hne]; exact two_rpow_sub_one_pos
  constructor
  · exact div_nonneg (powArr_nonneg d hne i) hP.le
  · show powArr d i / arrMax (powArr d) ≤ 1
    rw [div_le_one hP]
    exact le_arrMax (powArr d) i

lemma normArr_mono {n : ℕ} (d : Fin (n + 1) → ℝ) (hne : ∃ i j, d i ≠ d j)
    {i j : Fin (n + 1)} (hij : d i ≤ d j) : normArr d i ≤ normArr d j := by
  have hP : 0 < arrMax (powArr d) := by
    rw [arrMax_powArr d hne]; exact two_rpow_sub_one_pos
  exact (div_le_div_iff_of_pos_right hP).mpr (powArr_mono d hne hij)

lemma sizeArr_bounds {n : ℕ} (d : Fin (n + 1) → ℝ) (factorScale : ℝ)
    (hf : 1 ≤ factorScale) (hne : ∃ i j, d i ≠ d j) (i : Fin (n + 1)) :
    0.25 ≤ sizeArr d factorScale i ∧ sizeArr d factorScale i ≤ 0.25 * factorScale := by
  obtain ⟨h0, h1⟩ := normArr_bounds d hne i
  have hc : (0 : ℝ) ≤ factorScale - 1 := by linarith
  have hlow := mul_nonneg h0 hc
  have hhigh := mul_le_of_le_one_left hc h1
  show 0.25 ≤ (normArr d i * (factorScale - 1) + 1) * targetEdgeLength_s ∧
    (normArr d i * (factorScale - 1) + 1) * targetEdgeLength_s ≤ 0.25 * factorScale
  unfold targetEdgeLength_s
  constructor <;> nlinarith

lemma sizeArr_mono {n : ℕ} (d : Fin (n + 1) → ℝ) (factorScale : ℝ)
    (hf : 1 ≤ factorScale) (hne : ∃ i j, d i ≠ d j)
    {i j : Fin (n + 1)} (hij : d i ≤ d j) :
    sizeArr d factorScale i ≤ sizeArr d factorScale j := by
  have hc : (0 : ℝ) ≤ factorScale - 1 := by linarith
  have h := mul_le_mul_of_nonneg_right (normArr_mono d hne hij) hc
  show (normArr d i * (factorScale - 1) + 1) * targetEdgeLength_s ≤
    (normArr d j * (factorScale - 1) + 1) * targetEdgeLength_s
  unfold targetEdgeLength_s
  nlinarith

/-! ## State bookkeeping lemmas -/

@[simp] lemma St.call_fs (st : St) (c : Call) : (st.call c).fs = st.fs := rfl

@[simp] lemma St.call_params (st : St) (c : Call) : (st.call c).params = st.params := rfl

@[simp] lemma St.call_trace (st : St) (c : Call) : (st.call c).trace = st.trace ++ [c] := rfl

@[simp] lemma St.call_prints (st : St) (c : Call) : (st.call c).prints = st.prints := rfl

@[simp] lemma St.write_fs (st : St) (f : String) (v : Val) :
    (st.write f v).fs = Function.update st.fs f (some v) := rfl

@[simp] lemma St.write_params (st : St) (f : String) (v : Val) :
    (st.write f v).params = st.params := rfl

@[simp] lemma St.write_trace (st : St) (f : String) (v : Val) :
    (st.write f v).trace = st.trace := rfl

@[simp] lemma St.write_prints (st : St) (f : String) (v : Val) :
    (st.write f v).prints = st.prints := rfl

@[simp] lemma St.print_fs (st : St) (m : String) : (st.print m).fs = st.fs := rfl

@[simp] lemma St.print_trace (st : St) (m : String) : (st.print m).trace = st.trace := rfl

@[simp] lemma St.print_prints (st : St) (m : String) :
    (st.print m).prints = st.prints ++ [m] := rfl

@[simp] lemma St.removeFile_fs (st : St) (f : String) :
    (st.removeFile f).fs = Function.update st.fs f none := rfl

@[simp] lemma St.removeFile_trace (st : St) (f : String) :
    (st.removeFile f).trace = st.trace := rfl

/-! ## C9: the `str2bool` vocabulary -/

lemma yes_no_disjoint (x : String) :
    x ∈ ["yes", "true", "t", "y", "1"] → x ∉ ["no", "false", "f", "n", "0"] := by
  intro h
  fin_cases h <;> decide

/-- C9: `str2bool` returns `True` exactly when the lowercased input is one of
`yes/true/t/y/1`, `False` exactly when it is one of `no/false/f/n/0`, and
raises `ValueError` for every other string. -/
theorem str2bool_vocabulary_c9 (s : String) :
    (str2bool s = .ok true ↔ strLower s ∈ ["yes", "true", "t", "y", "1"]) ∧
    (str2bool s = .ok false ↔ strLower s ∈ ["no", "false", "f", "n", "0"]) ∧
    (strLower s ∉ ["yes", "true", "t", "y", "1"] →
      strLower s ∉ ["no", "false", "f", "n", "0"] →
      str2bool s = .error "Boolean value expected.") := by
  by_cases h1 : strLower s ∈ ["yes", "true", "t", "y", "1"]
  · have h2 := yes_no_disjoint _ h1
    simp [str2bool, h1, h2]
  · by_cases h2 : strLower s ∈ ["no", "false", "f", "n", "0"]
    · simp [str2bool, h1, h2]
    · simp [str2bool, h1, h2]

/-- Witness for C9 at the concrete inputs `"TRUE"`, `"0"`, `"maybe"`. -/
theorem str2bool_vocabulary_c9_witness :
    str2bool "TRUE" = .ok true ∧ str2bool "0" = .ok false ∧
    str2bool "maybe" = .error "Boolean value expected." :=
  ⟨(str2bool_vocabulary_c9 "TRUE").1.mpr (by decide),
   (str2bool_vocabulary_c9 "0").2.1.mpr (by decide),
   (str2bool_vocabulary_c9 "maybe").2.2 (by decide) (by decide)⟩

/-! ## C7: `meshing_method` and `edge_length` are accepted but unused -/

/-- C7: two runs that differ only in the parsed `meshingMethod` and/or
`edgeLength` flags — both of which `read_command_line` accepts and passes into
`run_pre_processing` — produce identical states, traces and outcomes. -/
theorem meshing_flags_unused_c7 (ext : Ext) (p : ParsedArgs) (st : St)
    (mm : String) (el : Option ℚ) :
    runPreProcessing ext (readCommandLine { p with meshingMethod := mm, edgeLength := el }) st
      = runPreProcessing ext (readCommandLine p) st := by
  cases p
  rfl

/-! ## String lemmas for the naming conventions -/

lemma strMk_data : ∀ s : String, String.mk s.data = s
  | ⟨_⟩ => rfl

lemma strData_inj {a b : String} (h : a.data = b.data) : a = b := by
  have h2 := congrArg String.mk h
  rw [strMk_data, strMk_data] at h2
  exact h2

lemma strApp_cancel_left {a b c : String} (h : a ++ b = a ++ c) : b = c := by
  apply strData_inj
  have h2 := congrArg String.data h
  simp only [String.data_append] at h2
  exact List.append_cancel_left h2

lemma rsplitLast_eq_none (sep : Char) : ∀ l : List Char, sep ∉ l → rsplitLast sep l = none
  | [], _ => rfl
  | ch :: cs, h => by
    have h1 : sep ∉ cs := fun hm => h (List.mem_cons_of_mem ch hm)
    have h2 : ch ≠ sep := fun he => h (he ▸ List.mem_cons_self ch cs)
    unfold rsplitLast
    rw [rsplitLast_eq_none sep cs h1]
    simp [h2]

lemma not_mem_of_rsplitLast_none (sep : Char) :
    ∀ l : List Char, rsplitLast sep l = none → sep ∉ l
  | [], _, hm => by simp at hm
  | ch :: cs, h, hm => by
    unfold rsplitLast at h
    cases hr : rsplitLast sep cs with
    | some p => rw [hr] at h; exact absurd h (by simp)
    | none =>
      rw [hr] at h
      by_cases hc : ch = sep
      · rw [if_pos hc] at h
        exact absurd h (by simp)
      · rcases List.mem_cons.mp hm with he | hm2
        · exact hc he.symm
        · exact not_mem_of_rsplitLast_none sep cs hr hm2

lemma rsplitLast_append_sep (dl r : List Char) (h : '/' ∉ r) :
    rsplitLast '/' (dl ++ '/' :: r) = some (dl, r) := by
  induction dl with
  | nil =>
    show rsplitLast '/' ('/' :: r) = some ([], r)
    unfold rsplitLast
    rw [rsplitLast_eq_none '/' r h]
    simp
  | cons ch cs ih =>
    show rsplitLast '/' (ch :: (cs ++ '/' :: r)) = some (ch :: cs, r)
    unfold rsplitLast
    rw [ih]

lemma rsplitLast_no_sep (sep : Char) : ∀ (l a b : List Char),
    rsplitLast sep l = some (a, b) → sep ∉ b
  | [], _, _, h => by simp [rsplitLast] at h
  | ch :: cs, a, b, h => by
    unfold rsplitLast at h
    cases hr : rsplitLast sep cs with
    | some p =>
      rw [hr] at h
      simp only [Option.some.injEq, Prod.mk.injEq] at h
      exact h.2 ▸ rsplitLast_no_sep sep cs p.1 p.2 (by rw [hr])
    | none =>
      rw [hr] at h
      by_cases hc : ch = sep
      · rw [if_pos hc] at h
        simp only [Option.some.injEq, Prod.mk.injEq] at h
        exact h.2 ▸ not_mem_of_rsplitLast_none sep cs hr
      · rw [if_neg hc] at h
        exact absurd h (by simp)

lemma takeUntilDot_append : ∀ c : List Char, '.' ∉ c →
    ∀ e : List Char, takeUntilDot (c ++ '.' :: e) = c
  | [], _, e => by simp [takeUntilDot]
  | ch :: cs, h, e => by
    have h1 : '.' ∉ cs := fun hm => h (List.mem_cons_of_mem ch hm)
    have h2 : ch ≠ '.' := fun he => h (he ▸ List.mem_cons_self ch cs)
    show takeUntilDot (ch :: (cs ++ '.' :: e)) = ch :: cs
    unfold takeUntilDot
    rw [if_neg h2, takeUntilDot_append cs h1 e]

lemma takeUntilDot_subset : ∀ (l : List Char) (ch : Char), ch ∈ takeUntilDot l → ch ∈ l
  | [], _, h => by simp [takeUntilDot] at h
  | c :: cs, ch, h => by
    unfold takeUntilDot at h
    by_cases hc : c = '.'
    · rw [if_pos hc] at h
      simp at h
    · rw [if_neg hc] at h
      rcases List.mem_cons.mp h with he | hm
      · exact he ▸ List.mem_cons_self c cs
      · exact List.mem_cons_of_mem c (takeUntilDot_subset cs ch hm)

lemma data_slash (d r : String) : (d ++ "/" ++ r).data = d.data ++ '/' :: r.data := by
  simp [String.data_append, show ("/" : String).data = ['/'] from rfl]

lemma data_dot (c e : String) : (c ++ "." ++ e).data = c.data ++ '.' :: e.data := by
  simp [String.data_append, show ("." : String).data = ['.'] from rfl]

lemma dirOf_shaped (d r : String) (h : '/' ∉ r.data) : dirOf (d ++ "/" ++ r) = d := by
  unfold dirOf
  rw [data_slash, rsplitLast_append_sep d.data r.data h]

lemma baseOf_shaped (d r : String) (h : '/' ∉ r.data) : baseOf (d ++ "/" ++ r) = r := by
  unfold baseOf
  rw [data_slash, rsplitLast_append_sep d.data r.data h]

lemma stemOf_shaped (c e : String) (h : '.' ∉ c.data) : stemOf (c ++ "." ++ e) = c := by
  unfold stemOf
  rw [data_dot, takeUntilDot_append c.data h e.data]

lemma startsWithSlash_append (c s : String) (hc : '/' ∉ c.data)
    (hs : strStartsWithSlash s = false) : strStartsWithSlash (c ++ s) = false := by
  unfold strStartsWithSlash at hs ⊢
  rw [String.data_append]
  cases hcd : c.data with
  | nil => simpa using hs
  | cons ch t =>
    have hch : ch ≠ '/' := fun he => hc (hcd ▸ (he ▸ List.mem_cons_self ch t))
    simp [hch]

lemma pathJoin_eq (d b : String) (hd0 : d ≠ "") (hdE : strEndsWithSlash d = false)
    (hb : strStartsWithSlash b = false) : pathJoin d b = d ++ "/" ++ b := by
  have hd0' : (d == "") = false := beq_eq_false_iff_ne.mpr hd0
  unfold pathJoin
  rw [hb, hd0', hdE]
  rfl

lemma baseOf_no_slash (s : String) : '/' ∉ (baseOf s).data := by
  unfold baseOf
  split
  · rename_i a b heq
    exact rsplitLast_no_sep '/' s.data a b heq
  · rename_i heq
    exact not_mem_of_rsplitLast_none '/' s.data heq

lemma caseName_no_slash (s : String) : '/' ∉ (stemOf (baseOf s)).data :=
  fun hm => baseOf_no_slash s (takeUntilDot_subset _ _ hm)

lemma pathJoin_suffix_inj {d c s1 s2 : String}
    (h1 : strStartsWithSlash (c ++ s1) = false)
    (h2 : strStartsWithSlash (c ++ s2) = false)
    (h : pathJoin d (c ++ s1) = pathJoin d (c ++ s2)) : s1 = s2 := by
  unfold pathJoin at h
  rw [h1, h2] at h
  simp only [Bool.cond_false] at h
  by_cases hd : d = ""
  · rw [beq_iff_eq.mpr hd] at h
    simp only [Bool.cond_true] at h
    exact strApp_cancel_left h
  · rw [beq_eq_false_iff_ne.mpr hd] at h
    simp only [Bool.cond_false] at h
    cases hdE : strEndsWithSlash d with
    | true =>
      rw [hdE] at h
      simp only [Bool.cond_true] at h
      exact strApp_cancel_left (strApp_cancel_left h)
    | false =>
      rw [hdE] at h
      simp only [Bool.cond_false] at h
      exact strApp_cancel_left (strApp_cancel_left h)

/-- Two derived names of the same case with different suffixes differ, for any
input path whatsoever. -/
lemma mkNames_field_ne (f : String) {s1 s2 : String}
    (hs1 : strStartsWithSlash s1 = false) (hs2 : strStartsWithSlash s2 = false)
    (hne : s1 ≠ s2) :
    pathJoin (dirOf f) (stemOf (baseOf f) ++ s1)
      ≠ pathJoin (dirOf f) (stemOf (baseOf f) ++ s2) :=
  fun h => hne (pathJoin_suffix_inj
    (startsWithSlash_append _ _ (caseName_no_slash f) hs1)
    (startsWithSlash_append _ _ (caseName_no_slash f) hs2) h)

/-! ## C8: the path/naming resolver -/

/-- C8: for an input path of the shape `d ++ "/" ++ c ++ "." ++ e`, the
resolver derives case name `c` and directory `d`, and every derived file name
is `d ++ "/" ++ c ++ suffix` for its fixed suffix; path derivation is a pure
total function with no failure case. -/
theorem path_naming_c8 (d c e : String) (hd0 : d ≠ "")
    (hdE : strEndsWithSlash d = false) (hc : '/' ∉ c.data) (hcd : '.' ∉ c.data)
    (he : '/' ∉ e.data) :
    (mkNames (d ++ "/" ++ c ++ "." ++ e)).caseName = c ∧
    (mkNames (d ++ "/" ++ c ++ "." ++ e)).dirPath = d ∧
    (mkNames (d ++ "/" ++ c ++ "." ++ e)).centerlines = d ++ "/" ++ (c ++ "_centerlines.vtp") ∧
    (mkNames (d ++ "/" ++ c ++ "." ++ e)).refineRegionCenterlines
      = d ++ "/" ++ (c ++ "_refine_region_centerline.vtp") ∧
    (mkNames (d ++ "/" ++ c ++ "." ++ e)).regionCenterlinesPat
      = d ++ "/" ++ (c ++ "_sac_centerline_\x7b\x7d.vtp") ∧
    (mkNames (d ++ "/" ++ c ++ "." ++ e)).distToSphereDiam
      = d ++ "/" ++ (c ++ "_distance_to_sphere_diam.vtp") ∧
    (mkNames (d ++ "/" ++ c ++ "." ++ e)).distToSphereConst
      = d ++ "/" ++ (c ++ "_distance_to_sphere_const.vtp") ∧
    (mkNames (d ++ "/" ++ c ++ "." ++ e)).distToSphereCurv
      = d ++ "/" ++ (c ++ "_distance_to_sphere_curv.vtp") ∧
    (mkNames (d ++ "/" ++ c ++ "." ++ e)).probePoints = d ++ "/" ++ (c ++ "_probe_point") ∧
    (mkNames (d ++ "/" ++ c ++ "." ++ e)).voronoi = d ++ "/" ++ (c ++ "_voronoi.vtp") ∧
    (mkNames (d ++ "/" ++ c ++ "." ++ e)).voronoiSmooth
      = d ++ "/" ++ (c ++ "_voronoi_smooth.vtp") ∧
    (mkNames (d ++ "/" ++ c ++ "." ++ e)).surfaceSmooth = d ++ "/" ++ (c ++ "_smooth.vtp") ∧
    (mkNames (d ++ "/" ++ c ++ "." ++ e)).modelFlowExt = d ++ "/" ++ (c ++ "_flowext.vtp") ∧
    (mkNames (d ++ "/" ++ c ++ "." ++ e)).clippedModel
      = d ++ "/" ++ (c ++ "_clippedmodel.vtp") ∧
    (mkNames (d ++ "/" ++ c ++ "." ++ e)).flowCenterlines = d ++ "/" ++ (c ++ "_flow_cl.vtp") ∧
    (mkNames (d ++ "/" ++ c ++ "." ++ e)).surfaceName
      = d ++ "/" ++ (c ++ "_remeshed_surface.vtp") ∧
    (mkNames (d ++ "/" ++ c ++ "." ++ e)).xmlMesh = d ++ "/" ++ (c ++ "_fsi.xml") ∧
    (mkNames (d ++ "/" ++ c ++ "." ++ e)).vtuMesh = d ++ "/" ++ (c ++ "_fsi.vtu") ∧
    (mkNames (d ++ "/" ++ c ++ "." ++ e)).runScript = d ++ "/" ++ (c ++ ".sh") ∧
    (mkNames (d ++ "/" ++ c ++ "." ++ e)).seedX = d ++ "/" ++ (c ++ "_seedX.vtp") := by
  have hassoc : d ++ "/" ++ c ++ "." ++ e = d ++ "/" ++ (c ++ "." ++ e) := by
    simp [String.append_assoc]
  have hr : '/' ∉ (c ++ "." ++ e).data := by
    rw [data_dot]
    intro hm
    rcases List.mem_append.mp hm with hm1 | hm2
    · exact hc hm1
    · rcases List.mem_cons.mp hm2 with he1 | he2
      · exact absurd he1 (by decide)
      · exact he he2
  have hdir : dirOf (d ++ "/" ++ c ++ "." ++ e) = d := by
    rw [hassoc]
    exact dirOf_shaped d _ hr
  have hbase : baseOf (d ++ "/" ++ c ++ "." ++ e) = c ++ "." ++ e := by
    rw [hassoc]
    exact baseOf_shaped d _ hr
  have hcase : stemOf (baseOf (d ++ "/" ++ c ++ "." ++ e)) = c := by
    rw [hbase]
    exact stemOf_shaped c e hcd
  refine ⟨hcase, hdir, ?_, ?_, ?_, ?_, ?_, ?_, ?_, ?_, ?_, ?_, ?_, ?_, ?_, ?_, ?_, ?_, ?_, ?_⟩
  all_goals
    simp only [mkNames]
    rw [hdir, hcase]
    exact pathJoin_eq d _ hd0 hdE (startsWithSlash_append c _ hc (by decide))

/-- Witness for C8 at the concrete path `/a/b/case.vtp`. -/
theorem path_naming_c8_witness :
    (mkNames ("/a/b" ++ "/" ++ "case" ++ "." ++ "vtp")).caseName = "case" ∧
    (mkNames ("/a/b" ++ "/" ++ "case" ++ "." ++ "vtp")).dirPath = "/a/b" ∧
    (mkNames ("/a/b" ++ "/" ++ "case" ++ "." ++ "vtp")).vtuMesh
      = "/a/b" ++ "/" ++ ("case" ++ "_fsi.vtu") := by
  obtain ⟨h1, h2, h3, h4, h5, h6, h7, h8, h9, h10, h11, h12, h13, h14, h15, h16, h17, h18,
    h19, h20⟩ :=
    path_naming_c8 "/a/b" "case" "vtp" (by decide) (by decide) (by decide) (by decide)
      (by decide)
  exact ⟨h1, h2, h18⟩

/-! ## C1: one mesh-generation retry -/

lemma meshFinish_counts (ext : Ext) (a : Args) (n : Names) (st : St) (m r : Val) :
    (meshFinish ext a n st m r).1.trace.countP Call.isGenCall
        = st.trace.countP Call.isGenCall ∧
    (meshFinish ext a n st m r).1.trace.countP Call.isAltCall
        = st.trace.countP Call.isAltCall ∧
    ∀ c ∈ st.trace, c ∈ (meshFinish ext a n st m r).1.trace := by
  simp only [meshFinish, writeMesh]
  cases a.scaleFactor <;>
    refine ⟨by simp [List.countP_append, List.countP_cons, Call.isGenCall],
      by simp [List.countP_append, List.countP_cons, Call.isAltCall],
      fun c hc => by simp [List.mem_append, hc]⟩

lemma meshRetry_spec (ext : Ext) (a : Args) (n : Names) (st : St) (s : Val) :
    ((meshRetry ext a n st s).1.trace.countP Call.isGenCall
        = st.trace.countP Call.isGenCall + 1) ∧
    ((meshRetry ext a n st s).1.trace.countP Call.isAltCall
        = st.trace.countP Call.isAltCall + 1) ∧
    Call.meshAlternative s ∈ (meshRetry ext a n st s).1.trace ∧
    Call.generateMeshFsi (ext.meshAlternative s) ∈ (meshRetry ext a n st s).1.trace ∧
    (genDegenerate ext (ext.meshAlternative s) = true →
      ∃ msg, (meshRetry ext a n st s).2 = .error (.raised msg)) := by
  simp only [meshRetry]
  cases hg : ext.generateMeshFsi (ext.meshAlternative s) with
  | none =>
    refine ⟨?_, ?_, ?_, ?_, fun _ => ⟨_, rfl⟩⟩
    · simp [List.countP_append, List.countP_cons, Call.isGenCall]
    · simp [List.countP_append, List.countP_cons, Call.isAltCall]
    · simp [List.mem_append]
    · simp [List.mem_append]
  | some mr =>
    dsimp only
    by_cases hm : ext.numPoints mr.1 = 0
    · rw [if_pos hm]
      refine ⟨?_, ?_, ?_, ?_, fun _ => ⟨_, rfl⟩⟩
      · simp [List.countP_append, List.countP_cons, Call.isGenCall]
      · simp [List.countP_append, List.countP_cons, Call.isAltCall]
      · simp [List.mem_append]
      · simp [List.mem_append]
    · rw [if_neg hm]
      by_cases hr : ext.numPoints mr.2 = 0
      · rw [if_pos hr]
        refine ⟨?_, ?_, ?_, ?_, fun _ => ⟨_, rfl⟩⟩
        · simp [List.countP_append, List.countP_cons, Call.isGenCall]
        · simp [List.countP_append, List.countP_cons, Call.isAltCall]
        · simp [List.mem_append]
        · simp [List.mem_append]
      · rw [if_neg hr]
        obtain ⟨hc1, hc2, hmem⟩ := meshFinish_counts ext a n
          ((st.call (.meshAlternative s)).call (.generateMeshFsi (ext.meshAlternative s)))
          mr.1 mr.2
        refine ⟨?_, ?_, ?_, ?_, ?_⟩
        · rw [hc1]
          simp [List.countP_append, List.countP_cons, Call.isGenCall]
        · rw [hc2]
          simp [List.countP_append, List.countP_cons, Call.isAltCall]
        · exact hmem _ (by simp [List.mem_append])
        · exact hmem _ (by simp [List.mem_append])
        · intro hdeg
          exfalso
          unfold genDegenerate at hdeg
          rw [hg] at hdeg
          simp at hdeg
          rcases hdeg with h | h
          · exact hr h
          · exact hm h

/-- C1: when the volumetric-mesh cache is absent and the first
`generate_mesh_fsi` attempt lands in the `except:` handler (raise or
degenerate result), the pipeline performs exactly one retry — applying
`mesh_alternative` to the same input surface and calling `generate_mesh_fsi`
on the result — and a degenerate second attempt propagates as a fatal raise
with no further retry. -/
theorem mesh_generation_retry_c1 (ext : Ext) (a : Args) (n : Names) (st : St) (s : Val)
    (hcache : st.fs n.vtuMesh = none) (hfail : genDegenerate ext s = true) :
    ((meshStage ext a n st s).1.trace.countP Call.isGenCall
        = st.trace.countP Call.isGenCall + 2) ∧
    ((meshStage ext a n st s).1.trace.countP Call.isAltCall
        = st.trace.countP Call.isAltCall + 1) ∧
    Call.meshAlternative s ∈ (meshStage ext a n st s).1.trace ∧
    Call.generateMeshFsi (ext.meshAlternative s) ∈ (meshStage ext a n st s).1.trace ∧
    (genDegenerate ext (ext.meshAlternative s) = true →
      ∃ msg, (meshStage ext a n st s).2 = .error (.raised msg)) := by
  simp only [meshStage]
  rw [if_pos hcache]
  unfold genDegenerate at hfail
  cases hg : ext.generateMeshFsi s with
  | none =>
    simp only [hg]
    obtain ⟨hc1, hc2, hm1, hm2, herr⟩ :=
      meshRetry_spec ext a n (st.call (.generateMeshFsi s)) s
    refine ⟨?_, ?_, hm1, hm2, herr⟩
    · rw [hc1]
      simp [List.countP_append, List.countP_cons, Call.isGenCall]
    · rw [hc2]
      simp [List.countP_append, List.countP_cons, Call.isAltCall]
  | some mr =>
    rw [hg] at hfail
    simp only [hg]
    have hcond : ext.numPoints mr.2 = 0 ∨ ext.numPoints mr.1 = 0 := by
      simpa using hfail
    rw [if_pos hcond]
    obtain ⟨hc1, hc2, hm1, hm2, herr⟩ :=
      meshRetry_spec ext a n (st.call (.generateMeshFsi s)) s
    refine ⟨?_, ?_, hm1, hm2, herr⟩
    · rw [hc1]
      simp [List.countP_append, List.countP_cons, Call.isGenCall]
    · rw [hc2]
      simp [List.countP_append, List.countP_cons, Call.isAltCall]

/-- Witness for C1: an oracle whose generator always returns zero-point
results, on a fresh disk state. -/
theorem mesh_generation_retry_c1_witness :
    stA.fs (mkNames "d/c.vtp").vtuMesh = none ∧
    genDegenerate extB 5 = true ∧
    ((meshStage extB argsA (mkNames "d/c.vtp") stA 5).1.trace.countP Call.isGenCall
        = stA.trace.countP Call.isGenCall + 2) ∧
    ((meshStage extB argsA (mkNames "d/c.vtp") stA 5).1.trace.countP Call.isAltCall
        = stA.trace.countP Call.isAltCall + 1) ∧
    (∃ msg, (meshStage extB argsA (mkNames "d/c.vtp") stA 5).2 = .error (.raised msg)) := by
  obtain ⟨h1, h2, _, _, h5⟩ :=
    mesh_generation_retry_c1 extB argsA (mkNames "d/c.vtp") stA 5 (by decide) (by decide)
  exact ⟨by decide, by decide, h1, h2, h5 (by decide)⟩

/-! ## C3: the Voronoi outlet-mismatch escape hatch -/

lemma getVoronoi_prints (ext : Ext) (n : Names) (st : St) (s : Val) :
    (getVoronoi ext n st s).1.prints = st.prints := by
  unfold getVoronoi
  split <;> simp

lemma getSmoothVoronoi_prints (ext : Ext) (a : Args) (n : Names) (st : St) (vor cl : Val)
    (r : Option Val) : (getSmoothVoronoi ext a n st vor cl r).1.prints = st.prints := by
  unfold getSmoothVoronoi
  split <;> simp

/-- C3: in a fresh Voronoi-smoothing branch, an outlet-count mismatch takes
the fallback path — a 200-iteration Laplacian smooth of the enveloped
surface, persisted to the smoothed-surface file, the manual-editing
instructions printed, and a clean `sys.exit(0)` — while matching counts lead
to a final 200-iteration Laplacian smooth of the uncapped surface and
continuation. -/
theorem voronoi_mismatch_c3 (ext : Ext) (a : Args) (n : Names) (st : St)
    (surface cl : Val) (r : Option Val) (hfresh : st.fs n.surfaceSmooth = none) :
    (ext.numberOfLines cl ≠ vbOutletsAfter ext a n st surface cl r →
      (voronoiBranch ext a n st surface cl r).2 = .error .exit0 ∧
      (voronoiBranch ext a n st surface cl r).1.fs n.surfaceSmooth
        = some (ext.vmtkSmoothSurface (vbEnveloped ext a n st surface cl r)
            "laplace" 200 none) ∧
      (voronoiBranch ext a n st surface cl r).1.prints
        = st.prints ++ [clipFailMsg n.surfaceSmooth] ∧
      Call.vmtkSmoothSurface (vbEnveloped ext a n st surface cl r) "laplace" 200 none
        ∈ (voronoiBranch ext a n st surface cl r).1.trace) ∧
    (ext.numberOfLines cl = vbOutletsAfter ext a n st surface cl r →
      (voronoiBranch ext a n st surface cl r).2
        = .ok (ext.vmtkSmoothSurface (vbUncapped ext a n st surface cl r)
            "laplace" 200 none) ∧
      (voronoiBranch ext a n st surface cl r).1.fs n.surfaceSmooth
        = some (ext.vmtkSmoothSurface (vbUncapped ext a n st surface cl r)
            "laplace" 200 none)) := by
  constructor
  · intro hmis
    have hmis' := hmis
    unfold vbOutletsAfter vbUncapped vbEnveloped vbSmoothVoronoi at hmis'
    dsimp only [voronoiBranch]
    rw [if_pos hfresh, if_pos hmis']
    refine ⟨rfl, ?_, ?_, ?_⟩
    · simp [vbEnveloped, vbSmoothVoronoi]
    · simp [getSmoothVoronoi_prints, getVoronoi_prints]
    · simp [List.mem_append, vbEnveloped, vbSmoothVoronoi]
  · intro hmat
    have hmat' := hmat
    unfold vbOutletsAfter vbUncapped vbEnveloped vbSmoothVoronoi at hmat'
    dsimp only [voronoiBranch]
    rw [if_pos hfresh, if_neg (fun hh => hh hmat')]
    constructor
    · simp [vbUncapped, vbEnveloped, vbSmoothVoronoi]
    · simp [vbUncapped, vbEnveloped, vbSmoothVoronoi]

/-- Witness for C3: a concrete oracle whose centerline count disagrees with
the recomputed outlet count. -/
theorem voronoi_mismatch_c3_witness :
    stA.fs (mkNames "d/c.vtp").surfaceSmooth = none ∧
    extC.numberOfLines 2 ≠ vbOutletsAfter extC argsV (mkNames "d/c.vtp") stA 1 2 none ∧
    (voronoiBranch extC argsV (mkNames "d/c.vtp") stA 1 2 none).2 = .error .exit0 ∧
    (voronoiBranch extC argsV (mkNames "d/c.vtp") stA 1 2 none).1.prints
      = stA.prints ++ [clipFailMsg (mkNames "d/c.vtp").surfaceSmooth] := by
  obtain ⟨h1, _, h3, _⟩ :=
    (voronoi_mismatch_c3 extC argsV (mkNames "d/c.vtp") stA 1 2 none (by decide)).1
      (by decide)
  exact ⟨by decide, by decide, h1, h3⟩

/-! ## C5: cache short-circuiting -/

/-- C5: for every stage with a declared cache file — smoothed surface,
Voronoi diagram, smoothed Voronoi diagram, flow-extension surface, flow
centerlines, seed-remeshed surface, volumetric mesh — a pre-existing output
file means the stage performs no external computation and passes the file's
content on unchanged. -/
theorem cache_short_circuit_c5 :
    (∀ (ext : Ext) (a : Args) (n : Names) (st : St) (surface cl : Val) (r : Option Val)
        (v : Val),
        (a.smoothingMethod = "voronoi" ∨ a.smoothingMethod = "laplace" ∨
          a.smoothingMethod = "taubin") →
        st.fs n.surfaceSmooth = some v →
        smoothStage ext a n st surface cl r = (st, .ok v)) ∧
    (∀ (ext : Ext) (n : Names) (st : St) (surface v : Val),
        st.fs n.voronoi = some v → getVoronoi ext n st surface = (st, v)) ∧
    (∀ (ext : Ext) (a : Args) (n : Names) (st : St) (vor cl : Val) (r : Option Val)
        (v : Val),
        st.fs n.voronoiSmooth = some v → getSmoothVoronoi ext a n st vor cl r = (st, v)) ∧
    (∀ (ext : Ext) (a : Args) (n : Names) (st : St) (surface cl v : Val),
        a.createFlowExtensions = true → st.fs n.modelFlowExt = some v →
        flowExtStage ext a n st surface cl = (st, v)) ∧
    (∀ (ext : Ext) (a : Args) (n : Names) (st : St) (se capped cl inlet v : Val),
        a.createFlowExtensions = true → st.fs n.flowCenterlines = some v →
        flowCenterlinesStage ext a n st se capped cl inlet = (st, v, inlet)) ∧
    (∀ (ext : Ext) (a : Args) (n : Names) (st : St) (se v : Val),
        st.fs n.seedX = some v → seedStage ext a n st se = (st, v)) ∧
    (∀ (ext : Ext) (a : Args) (n : Names) (st : St) (se v : Val),
        st.fs n.vtuMesh = some v → meshStage ext a n st se = (st, .ok v)) := by
  refine ⟨?_, ?_, ?_, ?_, ?_, ?_, ?_⟩
  · intro ext a n st surface cl r v hm h
    rcases hm with hm | hm | hm <;>
      · unfold smoothStage voronoiBranch
        rw [hm]
        simp [h, St.readFile]
  · intro ext n st surface v h
    unfold getVoronoi
    simp [h, St.readFile]
  · intro ext a n st vor cl r v h
    unfold getSmoothVoronoi
    simp [h, St.readFile]
  · intro ext a n st surface cl v hf h
    unfold flowExtStage
    rw [hf]
    simp [h, St.readFile]
  · intro ext a n st se capped cl inlet v hf h
    unfold flowCenterlinesStage
    rw [hf]
    simp [h, St.readFile]
  · intro ext a n st se v h
    unfold seedStage
    simp [h, St.readFile]
  · intro ext a n st se v h
    unfold meshStage
    simp [h, St.readFile]

/-- Witness for C5: a disk state in which all seven cache files pre-exist. -/
theorem cache_short_circuit_c5_witness :
    smoothStage extA argsL (mkNames "d/c.vtp") stC 1 2 none = (stC, .ok 7) ∧
    getVoronoi extA (mkNames "d/c.vtp") stC 1 = (stC, 7) ∧
    getSmoothVoronoi extA argsV (mkNames "d/c.vtp") stC 7 2 none = (stC, 7) ∧
    flowExtStage extA argsL (mkNames "d/c.vtp") stC 1 2 = (stC, 7) ∧
    flowCenterlinesStage extA argsL (mkNames "d/c.vtp") stC 1 2 3 4 = (stC, 7, 4) ∧
    seedStage extA argsL (mkNames "d/c.vtp") stC 1 = (stC, 7) ∧
    meshStage extA argsL (mkNames "d/c.vtp") stC 1 = (stC, .ok 7) :=
  ⟨cache_short_circuit_c5.1 extA argsL (mkNames "d/c.vtp") stC 1 2 none 7
      (Or.inr (Or.inl rfl)) (by decide),
   cache_short_circuit_c5.2.1 extA (mkNames "d/c.vtp") stC 1 7 (by decide),
   cache_short_circuit_c5.2.2.1 extA argsV (mkNames "d/c.vtp") stC 7 2 none 7 (by decide),
   cache_short_circuit_c5.2.2.2.1 extA argsL (mkNames "d/c.vtp") stC 1 2 7 rfl (by decide),
   cache_short_circuit_c5.2.2.2.2.1 extA argsL (mkNames "d/c.vtp") stC 1 2 3 4 7 rfl
     (by decide),
   cache_short_circuit_c5.2.2.2.2.2.1 extA argsL (mkNames "d/c.vtp") stC 1 7 (by decide),
   cache_short_circuit_c5.2.2.2.2.2.2 extA argsL (mkNames "d/c.vtp") stC 1 7 (by decide)⟩

/-! ## C6: the `check_surface` parameter-store gate -/

/-- C6: when the parameter store lacks `check_surface`, the repair block
runs; persisting NaN triangles raise with the parameter store (and disk)
untouched, otherwise `check_surface` is persisted; when the key is present
the whole block is skipped. -/
theorem check_surface_gate_c6 (ext : Ext) (st : St) (s : Val) :
    (st.params "check_surface" ≠ none → checkSurfaceStage ext st s = (st, .ok s)) ∧
    (st.params "check_surface" = none →
      ((ext.nanFix (ext.cleanTheSurface
          (ext.nanFix (ext.vtkTriangulateSurface (ext.vtkCleanPolydata s))).1)).2 = true →
        ∃ st' msg, checkSurfaceStage ext st s = (st', .error msg) ∧
          st'.params = st.params ∧ st'.fs = st.fs) ∧
      ((ext.nanFix (ext.cleanTheSurface
          (ext.nanFix (ext.vtkTriangulateSurface (ext.vtkCleanPolydata s))).1)).2 = false →
        ∃ st', checkSurfaceStage ext st s
            = (st', .ok (ext.nanFix (ext.cleanTheSurface
                (ext.nanFix (ext.vtkTriangulateSurface (ext.vtkCleanPolydata s))).1)).1) ∧
          st'.params "check_surface" = some 1 ∧ st'.fs = st.fs)) := by
  refine ⟨?_, ?_⟩
  · intro h
    unfold checkSurfaceStage
    rw [if_neg h]
  · intro hnone
    constructor
    · intro hN
      dsimp only [checkSurfaceStage]
      rw [if_pos hnone, hN, if_pos rfl]
      exact ⟨_, _, rfl, rfl, rfl⟩
    · intro hN
      dsimp only [checkSurfaceStage]
      rw [if_pos hnone, hN, if_neg Bool.false_ne_true]
      exact ⟨_, rfl, by simp, rfl⟩

/-- Witness for C6: the skip case on a checked store, and the fatal NaN case
on a fresh store with a repair that keeps finding NaN triangles. -/
theorem check_surface_gate_c6_witness :
    stA.params "check_surface" ≠ none ∧
    checkSurfaceStage extA stA 3 = (stA, .ok 3) ∧
    stP.params "check_surface" = none ∧
    (∃ st' msg, checkSurfaceStage extD stP 3 = (st', .error msg) ∧
      st'.params = stP.params ∧ st'.fs = stP.fs) := by
  refine ⟨by decide, (check_surface_gate_c6 extA stA 3).1 (by decide), by decide, ?_⟩
  exact ((check_surface_gate_c6 extD stP 3).2 (by decide)).1 (by decide)

/-! ## Cleanup and mesh-stage bookkeeping -/

lemma removeIfExists_fs_none (st : St) (g f : String) (h : st.fs f = none) :
    (removeIfExists st g).fs f = none := by
  unfold removeIfExists
  split
  · exact h
  · by_cases hfg : f = g
    · subst hfg
      simp
    · simp [Function.update_noteq hfg, h]

lemma cleanupFold_none_preserved : ∀ (l : List String) (st : St) (f : String),
    st.fs f = none → (l.foldl removeIfExists st).fs f = none
  | [], _, _, h => h
  | g :: t, st, f, h =>
    cleanupFold_none_preserved t (removeIfExists st g) f (removeIfExists_fs_none st g f h)

lemma cleanupFold_mem : ∀ (l : List String) (st : St) (f : String), f ∈ l →
    (l.foldl removeIfExists st).fs f = none
  | [], _, f, h => absurd h (List.not_mem_nil f)
  | g :: t, st, f, h => by
    show (t.foldl removeIfExists (removeIfExists st g)).fs f = none
    rcases List.mem_cons.mp h with he | ht
    · subst he
      apply cleanupFold_none_preserved
      unfold removeIfExists
      split
      · assumption
      · simp
    · exact cleanupFold_mem t _ f ht

lemma cleanupFold_not_mem : ∀ (l : List String) (st : St) (f : String), f ∉ l →
    (l.foldl removeIfExists st).fs f = st.fs f
  | [], _, _, _ => rfl
  | g :: t, st, f, h => by
    have hfg : f ≠ g := fun he => h (he ▸ List.mem_cons_self g t)
    have ht : f ∉ t := fun hm => h (List.mem_cons_of_mem g hm)
    show (t.foldl removeIfExists (removeIfExists st g)).fs f = st.fs f
    rw [cleanupFold_not_mem t _ f ht]
    unfold removeIfExists
    split
    · rfl
    · simp [Function.update_noteq hfg]

lemma postStage_fs (ext : Ext) (a : Args) (st : St) (cl : Val) (rc : List Val)
    (inlet se mesh : Val) : (postStage ext a st cl rc inlet se mesh).fs = st.fs := by
  dsimp only [postStage]
  split <;> rfl

lemma vtu_not_removed (f : String) :
    (mkNames f).vtuMesh ∉ filesToRemove (mkNames f) := by
  intro hmem
  simp only [filesToRemove, List.mem_cons, List.not_mem_nil, or_false] at hmem
  rcases hmem with h|h|h|h|h|h|h|h|h|h|h|h|h
  · exact @mkNames_field_ne f "_fsi.vtu" "_centerlines.vtp"
      (by decide) (by decide) (by decide) h
  · exact @mkNames_field_ne f "_fsi.vtu" "_refine_region_centerline.vtp"
      (by decide) (by decide) (by decide) h
  · exact @mkNames_field_ne f "_fsi.vtu" "_sac_centerline_\x7b\x7d.vtp"
      (by decide) (by decide) (by decide) h
  · exact @mkNames_field_ne f "_fsi.vtu" "_distance_to_sphere_diam.vtp"
      (by decide) (by decide) (by decide) h
  · exact @mkNames_field_ne f "_fsi.vtu" "_distance_to_sphere_const.vtp"
      (by decide) (by decide) (by decide) h
  · exact @mkNames_field_ne f "_fsi.vtu" "_distance_to_sphere_curv.vtp"
      (by decide) (by decide) (by decide) h
  · exact @mkNames_field_ne f "_fsi.vtu" "_voronoi.vtp"
      (by decide) (by decide) (by decide) h
  · exact @mkNames_field_ne f "_fsi.vtu" "_voronoi_smooth.vtp"
      (by decide) (by decide) (by decide) h
  · exact @mkNames_field_ne f "_fsi.vtu" "_smooth.vtp"
      (by decide) (by decide) (by decide) h
  · exact @mkNames_field_ne f "_fsi.vtu" "_flowext.vtp"
      (by decide) (by decide) (by decide) h
  · exact @mkNames_field_ne f "_fsi.vtu" "_clippedmodel.vtp"
      (by decide) (by decide) (by decide) h
  · exact @mkNames_field_ne f "_fsi.vtu" "_flow_cl.vtp"
      (by decide) (by decide) (by decide) h
  · exact @mkNames_field_ne f "_fsi.vtu" "_remeshed_surface.vtp"
      (by decide) (by decide) (by decide) h

lemma xml_not_removed (f : String) :
    (mkNames f).xmlMesh ∉ filesToRemove (mkNames f) := by
  intro hmem
  simp only [filesToRemove, List.mem_cons, List.not_mem_nil, or_false] at hmem
  rcases hmem with h|h|h|h|h|h|h|h|h|h|h|h|h
  · exact @mkNames_field_ne f "_fsi.xml" "_centerlines.vtp"
      (by decide) (by decide) (by decide) h
  · exact @mkNames_field_ne f "_fsi.xml" "_refine_region_centerline.vtp"
      (by decide) (by decide) (by decide) h
  · exact @mkNames_field_ne f "_fsi.xml" "_sac_centerline_\x7b\x7d.vtp"
      (by decide) (by decide) (by decide) h
  · exact @mkNames_field_ne f "_fsi.xml" "_distance_to_sphere_diam.vtp"
      (by decide) (by decide) (by decide) h
  · exact @mkNames_field_ne f "_fsi.xml" "_distance_to_sphere_const.vtp"
      (by decide) (by decide) (by decide) h
  · exact @mkNames_field_ne f "_fsi.xml" "_distance_to_sphere_curv.vtp"
      (by decide) (by decide) (by decide) h
  · exact @mkNames_field_ne f "_fsi.xml" "_voronoi.vtp"
      (by decide) (by decide) (by decide) h
  · exact @mkNames_field_ne f "_fsi.xml" "_voronoi_smooth.vtp"
      (by decide) (by decide) (by decide) h
  · exact @mkNames_field_ne f "_fsi.xml" "_smooth.vtp"
      (by decide) (by decide) (by decide) h
  · exact @mkNames_field_ne f "_fsi.xml" "_flowext.vtp"
      (by decide) (by decide) (by decide) h
  · exact @mkNames_field_ne f "_fsi.xml" "_clippedmodel.vtp"
      (by decide) (by decide) (by decide) h
  · exact @mkNames_field_ne f "_fsi.xml" "_flow_cl.vtp"
      (by decide) (by decide) (by decide) h
  · exact @mkNames_field_ne f "_fsi.xml" "_remeshed_surface.vtp"
      (by decide) (by decide) (by decide) h

lemma meshFinish_fs_vtu (ext : Ext) (a : Args) (n : Names) (st : St) (m r : Val)
    (hx : n.vtuMesh ≠ n.xmlMesh) :
    (meshFinish ext a n st m r).1.fs n.vtuMesh ≠ none := by
  dsimp only [meshFinish, writeMesh]
  cases a.scaleFactor <;> simp [Function.update_noteq hx]

lemma meshFinish_fs_xml (ext : Ext) (a : Args) (n : Names) (st : St) (m r : Val) :
    (meshFinish ext a n st m r).1.fs n.xmlMesh ≠ none := by
  dsimp only [meshFinish, writeMesh]
  cases a.scaleFactor <;> simp

lemma meshRetry_ok_finish (ext : Ext) (a : Args) (n : Names) (st : St) (s : Val)
    (st' : St) (mesh : Val) (h : meshRetry ext a n st s = (st', .ok mesh)) :
    ∃ st0 m r, meshFinish ext a n st0 m r = (st', .ok mesh) := by
  dsimp only [meshRetry] at h
  cases hg : ext.generateMeshFsi (ext.meshAlternative s) with
  | none =>
    rw [hg] at h
    simp at h
  | some mr =>
    rw [hg] at h
    dsimp only at h
    by_cases h1 : ext.numPoints mr.1 = 0
    · rw [if_pos h1] at h
      simp at h
    · rw [if_neg h1] at h
      by_cases h2 : ext.numPoints mr.2 = 0
      · rw [if_pos h2] at h
        simp at h
      · rw [if_neg h2] at h
        exact ⟨_, _, _, h⟩

lemma meshStage_ok_fs (ext : Ext) (a : Args) (n : Names) (st : St) (s : Val)
    (st' : St) (mesh : Val) (h : meshStage ext a n st s = (st', .ok mesh)) :
    (st' = st ∧ st.fs n.vtuMesh ≠ none) ∨
    ∃ st0 m r, meshFinish ext a n st0 m r = (st', .ok mesh) := by
  dsimp only [meshStage] at h
  by_cases hc : st.fs n.vtuMesh = none
  · rw [if_pos hc] at h
    right
    cases hg : ext.generateMeshFsi s with
    | none =>
      rw [hg] at h
      exact meshRetry_ok_finish ext a n _ s st' mesh h
    | some mr =>
      rw [hg] at h
      dsimp only at h
      by_cases hd : ext.numPoints mr.2 = 0 ∨ ext.numPoints mr.1 = 0
      · rw [if_pos hd] at h
        exact meshRetry_ok_finish ext a n _ s st' mesh h
      · rw [if_neg hd] at h
        exact ⟨_, _, _, h⟩
  · rw [if_neg hc] at h
    simp only [Prod.mk.injEq] at h
    exact Or.inl ⟨h.1.symm, hc⟩

lemma meshStage_ok_vtu (ext : Ext) (a : Args) (n : Names) (st : St) (s : Val)
    (hx : n.vtuMesh ≠ n.xmlMesh) (st' : St) (mesh : Val)
    (h : meshStage ext a n st s = (st', .ok mesh)) : st'.fs n.vtuMesh ≠ none := by
  rcases meshStage_ok_fs ext a n st s st' mesh h with ⟨rfl, hc⟩ | ⟨st0, m, r, hf⟩
  · exact hc
  · have := meshFinish_fs_vtu ext a n st0 m r hx
    rw [hf] at this
    exact this

lemma meshStage_fresh_ok_xml (ext : Ext) (a : Args) (n : Names) (st : St) (s : Val)
    (hc : st.fs n.vtuMesh = none) (st' : St) (mesh : Val)
    (h : meshStage ext a n st s = (st', .ok mesh)) : st'.fs n.xmlMesh ≠ none := by
  rcases meshStage_ok_fs ext a n st s st' mesh h with ⟨rfl, hc2⟩ | ⟨st0, m, r, hf⟩
  · exact absurd hc hc2
  · have := meshFinish_fs_xml ext a n st0 m r
    rw [hf] at this
    exact this

/-! ## C2 (corrected): cleanup deletes the remeshed surface as well -/

/-- Counterexample to C2 as stated: on a successful concrete run the mesh
stage writes the remeshed-surface file, yet after cleanup it is gone from
disk. -/
theorem cleanup_c2_counterexample :
    (runPreProcessing extA argsA stA).2 = .ok () ∧
    (meshStage extA argsA (mkNames "d/c.vtp") stM_A mid_A.seedSurface).1.fs
      "d/c_remeshed_surface.vtp" ≠ none ∧
    (runPreProcessing extA argsA stA).1.fs "d/c_remeshed_surface.vtp" = none :=
  ⟨rfl, by decide, by decide⟩

/-- C2 (amended): after a successful run every file of the explicit removal
list — which contains the remeshed-surface file and the UNformatted
sac-centerline pattern — is absent, the volumetric `.vtu` mesh remains, and
the solver `.xml` mesh remains whenever the mesh was computed in this run. -/
theorem cleanup_outputs_c2_amended (ext : Ext) (a : Args) (st0 st' : St)
    (h : runPreProcessing ext a st0 = (st', .ok ())) :
    (∀ f ∈ filesToRemove (mkNames a.filenameModel), st'.fs f = none) ∧
    st'.fs (mkNames a.filenameModel).vtuMesh ≠ none ∧
    ((runToMesh ext a st0).1.fs (mkNames a.filenameModel).vtuMesh = none →
      st'.fs (mkNames a.filenameModel).xmlMesh ≠ none) := by
  unfold runPreProcessing at h
  rcases hr : runToMesh ext a st0 with ⟨st1, res⟩
  rw [hr] at h
  cases res with
  | error hh => simp at h
  | ok mid =>
    dsimp only at h
    unfold runFromMesh at h
    rcases hm : meshStage ext a (mkNames a.filenameModel) st1 mid.seedSurface
      with ⟨st2, mres⟩
    rw [hm] at h
    cases mres with
    | error hh => simp at h
    | ok mesh =>
      dsimp only at h
      simp only [Prod.mk.injEq] at h
      obtain ⟨hst', -⟩ := h
      subst hst'
      refine ⟨?_, ?_, ?_⟩
      · intro f hf
        exact cleanupFold_mem _ _ f hf
      · unfold cleanupStage
        rw [cleanupFold_not_mem _ _ _ (vtu_not_removed a.filenameModel), postStage_fs]
        exact meshStage_ok_vtu ext a (mkNames a.filenameModel) st1 mid.seedSurface
          (@mkNames_field_ne a.filenameModel "_fsi.vtu" "_fsi.xml"
            (by decide) (by decide) (by decide)) st2 mesh hm
      · intro hnone2
        dsimp only at hnone2
        unfold cleanupStage
        rw [cleanupFold_not_mem _ _ _ (xml_not_removed a.filenameModel), postStage_fs]
        exact meshStage_fresh_ok_xml ext a (mkNames a.filenameModel) st1 mid.seedSurface
          hnone2 st2 mesh hm

/-- Witness for the amended C2 on the concrete successful run. -/
theorem cleanup_outputs_c2_amended_witness :
    (∀ f ∈ filesToRemove (mkNames argsA.filenameModel),
      (runPreProcessing extA argsA stA).1.fs f = none) ∧
    (runPreProcessing extA argsA stA).1.fs (mkNames argsA.filenameModel).vtuMesh ≠ none ∧
    ((runToMesh extA argsA stA).1.fs (mkNames argsA.filenameModel).vtuMesh = none →
      (runPreProcessing extA argsA stA).1.fs (mkNames argsA.filenameModel).xmlMesh
        ≠ none) :=
  cleanup_outputs_c2_amended extA argsA stA (runPreProcessing extA argsA stA).1 rfl

/-! ## C10: a cached mesh is never rescaled -/

lemma meshStage_cached (ext : Ext) (a : Args) (n : Names) (st : St) (s v : Val)
    (h : st.fs n.vtuMesh = some v) : meshStage ext a n st s = (st, .ok v) := by
  unfold meshStage
  simp [h, St.readFile]

lemma runToMesh_scale_irrel (ext : Ext) (a : Args) (st : St) (sf : Option ℚ) :
    runToMesh ext { a with scaleFactor := sf } st = runToMesh ext a st := by
  cases a
  rfl

lemma postStage_scale_irrel (ext : Ext) (a : Args) (sf : Option ℚ) (st : St) (cl : Val)
    (rc : List Val) (inlet se mesh : Val) :
    postStage ext { a with scaleFactor := sf } st cl rc inlet se mesh
      = postStage ext a st cl rc inlet se mesh := by
  cases a
  rfl

/-- C10: when the volumetric-mesh cache file exists at the mesh stage, the
stage performs no work (and hence no scaling and no mesh writes), so two runs
differing only in `scale_factor` coincide in every external call and every
output. -/
theorem cached_mesh_scale_c10 (ext : Ext) (a : Args) (st : St) (sf1 sf2 : Option ℚ)
    (v : Val) (hok : isOkE (runToMesh ext a st).2 = true)
    (hvtu : (runToMesh ext a st).1.fs (mkNames a.filenameModel).vtuMesh = some v) :
    runPreProcessing ext { a with scaleFactor := sf1 } st
      = runPreProcessing ext { a with scaleFactor := sf2 } st ∧
    (∀ mid, (runToMesh ext a st).2 = .ok mid →
      meshStage ext { a with scaleFactor := sf1 } (mkNames a.filenameModel)
          (runToMesh ext a st).1 mid.seedSurface
        = ((runToMesh ext a st).1, .ok v)) := by
  constructor
  · unfold runPreProcessing
    rw [runToMesh_scale_irrel ext a st sf1, runToMesh_scale_irrel ext a st sf2]
    rcases hr : runToMesh ext a st with ⟨st1, res⟩
    rw [hr] at hvtu
    dsimp only at hvtu
    cases res with
    | error hh => dsimp only
    | ok mid =>
      dsimp only
      unfold runFromMesh
      dsimp only
      rw [meshStage_cached ext { a with scaleFactor := sf1 } _ st1 mid.seedSurface v hvtu,
        meshStage_cached ext { a with scaleFactor := sf2 } _ st1 mid.seedSurface v hvtu]
      dsimp only
      rw [postStage_scale_irrel ext a sf1, postStage_scale_irrel ext a sf2]
  · intro mid hmid
    exact meshStage_cached ext { a with scaleFactor := sf1 } _ _ mid.seedSurface v hvtu

/-- Witness for C10: a run whose mesh cache pre-exists, compared at two
different scale factors. -/
theorem cached_mesh_scale_c10_witness :
    isOkE (runToMesh extA argsA stB).2 = true ∧
    (runToMesh extA argsA stB).1.fs (mkNames argsA.filenameModel).vtuMesh = some 42 ∧
    runPreProcessing extA { argsA with scaleFactor := none } stB
      = runPreProcessing extA { argsA with scaleFactor := some 5 } stB := by
  have h := cached_mesh_scale_c10 extA argsA stB none (some 5) 42 (by decide) (by decide)
  exact ⟨by decide, by decide, h.1⟩

/-! ## C4: the seed-based size field -/

/-- C4: for a surface whose vertices are not all equidistant from the seed and
a coarsening factor at least 1, the `"Size"` field lies in
`[0.25, 0.25 * coarsening_factor]`, is monotonically non-decreasing in the
distance to the seed, and attains its minimum at the vertex closest to the
seed. -/
theorem seed_size_field_c4 {n : ℕ} (surface : Fin (n + 1) → Pt) (seedX : Pt)
    (factorScale : ℝ) (hf : 1 ≤ factorScale)
    (hne : ∃ i j, distArray surface seedX i ≠ distArray surface seedX j) :
    (∀ i, 0.25 ≤ sizeField surface seedX factorScale i ∧
      sizeField surface seedX factorScale i ≤ 0.25 * factorScale) ∧
    (∀ i j, distArray surface seedX i ≤ distArray surface seedX j →
      sizeField surface seedX factorScale i ≤ sizeField surface seedX factorScale j) ∧
    (∀ i, (∀ j, distArray surface seedX i ≤ distArray surface seedX j) →
      ∀ j, sizeField surface seedX factorScale i ≤ sizeField surface seedX factorScale j) :=
  ⟨fun i => sizeArr_bounds (distArray surface seedX) factorScale hf hne i,
   fun _ _ hij => sizeArr_mono (distArray surface seedX) factorScale hf hne hij,
   fun _ hmin j => sizeArr_mono (distArray surface seedX) factorScale hf hne (hmin j)⟩

/-- Witness for C4 on a two-vertex surface at distances 1 and 3 from the
seed, with coarsening factor 2. -/
theorem seed_size_field_c4_witness :
    (1 : ℝ) ≤ 2 ∧
    distArray surf2 seed2 0 ≠ distArray surf2 seed2 1 ∧
    (0.25 ≤ sizeField surf2 seed2 2 0 ∧ sizeField surf2 seed2 2 0 ≤ 0.25 * 2) ∧
    (distArray surf2 seed2 0 ≤ distArray surf2 seed2 1 →
      sizeField surf2 seed2 2 0 ≤ sizeField surf2 seed2 2 1) := by
  have h0 : distArray surf2 seed2 0 = 1 := by
    simp only [distArray, seedDist, surf2, seed2]
    norm_num
  have h1 : distArray surf2 seed2 1 = 3 := by
    simp only [distArray, seedDist, surf2, seed2]
    norm_num
    rw [show ((9:ℝ)) = 3 ^ 2 by norm_num, Real.sqrt_sq (by norm_num : (0:ℝ) ≤ 3)]
  have hne : distArray surf2 seed2 0 ≠ distArray surf2 seed2 1 := by
    rw [h0, h1]
    norm_num
  have h := seed_size_field_c4 surf2 seed2 2 (by norm_num) ⟨0, 1, hne⟩
  exact ⟨by norm_num, hne, h.1 0, fun hij => h.2.1 0 1 hij⟩

end BioFSI
